import Mathlib

/-!
Verification development for the ParallelCluster CDK cluster-stack synthesizer
(`cli/src/pcluster/templates/cluster_stack.py`).  The Python code is shallowly
embedded: pure computations become Lean functions, the mutable accumulator
state threaded through the `ClusterCdkStack` helpers becomes explicit state
passing, Python optional values become `Option`, and Python truthiness and
`str()` rendering are modelled explicitly.
-/

namespace ClusterStack

/-! ## Python value helpers

Python renders values into the comma-joined option strings with `str(item)`:
`None` becomes `"None"`, `True`/`False` keep their capitalization, integers
print their decimal form.  Python truthiness treats `None`, `""`, `0`, `False`
and empty lists as false. -/

inductive PyVal where
  | pyNone
  | pyStr (s : String)
  | pyBool (b : Bool)
  | pyInt (n : Int)
  deriving Repr, DecidableEq

/-- Python `str(item)` on the values appearing in the storage option strings. -/
def pyStrOf : PyVal → String
  | .pyNone => "None"
  | .pyStr s => s
  | .pyBool true => "True"
  | .pyBool false => "False"
  | .pyInt n => toString n

/-- Python truthiness of a scalar value. -/
def pyTruthy : PyVal → Bool
  | .pyNone => false
  | .pyStr s => !(s == "")
  | .pyBool b => b
  | .pyInt n => !(n == 0)

/-- Python `item or "NONE"`. -/
def pyOrNONE (v : PyVal) : PyVal :=
  if pyTruthy v then v else .pyStr "NONE"

/-- Python `item if item is not None else "NONE"`. -/
def pyIfNotNoneElseNONE : PyVal → PyVal
  | .pyNone => .pyStr "NONE"
  | v => v

def pyOfStrOpt : Option String → PyVal
  | none => .pyNone
  | some s => .pyStr s

def pyOfIntOpt : Option Int → PyVal
  | none => .pyNone
  | some n => .pyInt n

def pyOfBoolOpt : Option Bool → PyVal
  | none => .pyNone
  | some b => .pyBool b

/-- Truthiness of a Python value modelled as `Option String` (`None` and `""`
are falsy). -/
def pyTruthyStrOpt (o : Option String) : Bool := pyTruthy (pyOfStrOpt o)

/-- Truthiness of a Python value that is either `None` or a list (`None` and
`[]` are falsy). -/
def pyTruthyList (o : Option (List String)) : Bool :=
  match o with
  | none => false
  | some l => !l.isEmpty

/-- Python `",".join(...)` over a generator of values that may be `None`.
`str.join` raises `TypeError` on a non-string element, so the result is
partial: it is `none` whenever some element is absent. -/
def pyJoinIds (ids : List (Option String)) : Option String :=
  if ids.all Option.isSome then some (String.intercalate "," (ids.filterMap id)) else none

/-! ## Configuration data model

Mirrors the fields of `SlurmClusterConfig` / `AwsBatchClusterConfig` and their
nested sections that `cluster_stack.py` reads.  Optional Python attributes are
`Option`-typed. -/

structure Proxy where
  httpProxyAddress : String
  deriving Repr, DecidableEq

structure Dcv where
  port : Int
  allowedIps : String
  deriving Repr, DecidableEq

structure Ssh where
  keyName : Option String
  allowedIps : String
  deriving Repr, DecidableEq

structure HeadNodeNetworking where
  subnetId : String
  availabilityZone : String
  securityGroups : Option (List String)
  additionalSecurityGroups : Option (List String)
  proxy : Option Proxy
  deriving Repr, DecidableEq

structure CustomAction where
  script : String
  args : List String
  deriving Repr, DecidableEq

structure CustomActions where
  onNodeStart : Option CustomAction
  onNodeConfigured : Option CustomAction
  deriving Repr, DecidableEq

structure HeadNode where
  instanceType : String
  networking : HeadNodeNetworking
  ssh : Ssh
  dcv : Option Dcv
  customActions : Option CustomActions
  disableSimultaneousMultithreadingManually : Bool
  imdsSecured : Bool
  maxNetworkInterfaceCount : Nat
  ephemeralVolumeMountDir : Option String
  deriving Repr, DecidableEq

structure PlacementGroup where
  enabled : Bool
  id : Option String
  deriving Repr, DecidableEq

structure QueueNetworking where
  subnetIds : List String
  securityGroups : Option (List String)
  additionalSecurityGroups : Option (List String)
  placementGroup : Option PlacementGroup
  assignPublicIp : Bool
  deriving Repr, DecidableEq

structure Efa where
  enabled : Bool
  gdrSupport : Bool
  deriving Repr, DecidableEq

inductive CapacityType where
  | onDemand
  | spot
  deriving Repr, DecidableEq

structure ComputeResource where
  name : String
  instanceType : String
  maxNetworkInterfaceCount : Nat
  efa : Option Efa
  spotPrice : Option Int
  disableSimultaneousMultithreadingManually : Bool
  deriving Repr, DecidableEq

structure Queue where
  name : String
  networking : QueueNetworking
  computeResources : List ComputeResource
  capacityType : CapacityType
  customActions : Option CustomActions
  deriving Repr, DecidableEq

structure Scheduling where
  scheduler : String
  queues : List Queue
  deriving Repr, DecidableEq

structure Raid where
  raidType : Option Int
  numberOfVolumes : Nat
  deriving Repr, DecidableEq

structure SharedEbs where
  name : String
  mountDir : Option String
  volumeId : Option String
  kmsKeyId : Option String
  snapshotId : Option String
  volumeType : Option String
  iops : Option Int
  size : Option Int
  encrypted : Option Bool
  throughput : Option Int
  deriving Repr, DecidableEq

structure SharedEfs where
  name : String
  mountDir : Option String
  fileSystemId : Option String
  encrypted : Option Bool
  kmsKeyId : Option String
  performanceMode : Option String
  provisionedThroughput : Option Int
  throughputMode : Option String
  deriving Repr, DecidableEq

structure SharedFsx where
  name : String
  mountDir : Option String
  fileSystemId : Option String
  storageCapacity : Option Int
  deploymentType : Option String
  dataCompressionType : Option String
  importedFileChunkSize : Option Int
  exportPath : Option String
  importPath : Option String
  weeklyMaintenanceStartTime : Option String
  automaticBackupRetentionDays : Option Int
  copyTagsToBackups : Option Bool
  dailyAutomaticBackupStartTime : Option String
  perUnitStorageThroughput : Option Int
  autoImportPolicy : Option String
  backupId : Option String
  kmsKeyId : Option String
  fsxStorageType : Option String
  driveCacheType : Option String
  existingMountName : Option String
  existingDnsName : Option String
  deriving Repr, DecidableEq

/-- A shared-storage declaration; `shared_storage_type` is the variant tag, and
a RAID declaration is a `SharedEbs` whose `raid` section is present. -/
inductive SharedStorage where
  | ebs (e : SharedEbs)
  | efs (e : SharedEfs)
  | fsx (f : SharedFsx)
  | raid (e : SharedEbs) (r : Raid)
  deriving Repr, DecidableEq

structure Image where
  os : String
  deriving Repr, DecidableEq

structure ClusterConfig where
  image : Image
  headNode : HeadNode
  scheduling : Scheduling
  sharedStorage : List SharedStorage
  computeSubnetIds : List String
  computeSecurityGroups : List String
  vpcId : String
  isCwLoggingEnabled : Bool
  isDcvEnabled : Bool
  isIntelHpcPlatformEnabled : Bool
  extraChefAttributes : String
  customNodePackage : Option String
  customAwsBatchCliPackage : Option String
  configVersion : String
  byosTemplateProvided : Bool
  additionalResources : Option String
  isCwDashboardEnabled : Bool
  deriving Repr, DecidableEq

/-! ## Scheduler conditions (`_condition_is_slurm` / `_condition_is_byos` /
`_condition_is_batch`) -/

def conditionIsSlurm (cfg : ClusterConfig) : Bool := cfg.scheduling.scheduler == "slurm"

def conditionIsByos (cfg : ClusterConfig) : Bool := cfg.scheduling.scheduler == "byos"

def conditionIsBatch (cfg : ClusterConfig) : Bool := cfg.scheduling.scheduler == "awsbatch"

/-! ## Security groups (`_add_security_groups`)

The managed security groups are CDK resources; their `ref` tokens are modelled
by their logical ids. -/

def headSecurityGroupRef : String := "HeadNodeSecurityGroup"

def computeSecurityGroupRef : String := "ComputeSecurityGroup"

structure CfnSecurityGroupIngress where
  logicalId : String
  ipProtocol : String
  fromPort : Int
  toPort : Int
  sourceSecurityGroupId : String
  groupId : String
  deriving Repr, DecidableEq

/-- Head security group is synthesized when the head node supplies no
security-group list (`not self.config.head_node.networking.security_groups`). -/
def headSecurityGroupManaged (cfg : ClusterConfig) : Bool :=
  !(pyTruthyList cfg.headNode.networking.securityGroups)

/-- Compute security group is synthesized when at least one queue supplies no
security-group list. -/
def computeSecurityGroupManaged (cfg : ClusterConfig) : Bool :=
  cfg.scheduling.queues.any fun q => !(pyTruthyList q.networking.securityGroups)

/-- `ClusterCdkStack._add_security_groups`: returns the managed head security
group, the managed compute security group, and the cross-ingress rules created
between them. -/
def addSecurityGroups (cfg : ClusterConfig) :
    Option String × Option String × List CfnSecurityGroupIngress :=
  let headSecurityGroup : Option String :=
    if headSecurityGroupManaged cfg then some headSecurityGroupRef else none
  let managedComputeSecurityGroup : Option String :=
    if computeSecurityGroupManaged cfg then some computeSecurityGroupRef else none
  let ingress : List CfnSecurityGroupIngress :=
    match headSecurityGroup, managedComputeSecurityGroup with
    | some h, some c =>
        [{ logicalId := "HeadNodeSecurityGroupComputeIngress", ipProtocol := "-1",
           fromPort := 0, toPort := 65535, sourceSecurityGroupId := c, groupId := h },
         { logicalId := "ComputeSecurityGroupHeadNodeIngress", ipProtocol := "-1",
           fromPort := 0, toPort := 65535, sourceSecurityGroupId := h, groupId := c }]
    | _, _ => []
  (headSecurityGroup, managedComputeSecurityGroup, ingress)

/-- The cross-ingress rules created by `_add_security_groups`. -/
def crossIngressRules (cfg : ClusterConfig) : List CfnSecurityGroupIngress :=
  (addSecurityGroups cfg).2.2

/-! ## Head-node security-group resolution (`_get_head_node_security_groups`,
`_get_head_node_security_groups_full`)

The Python helper

```
head_node_group_set = self._get_head_node_security_groups()
if self.config.head_node.networking.additional_security_groups:
    head_node_group_set.extend(self.config.head_node.networking.additional_security_groups)
```

extends, in place, the very list object returned by
`self.config.head_node.networking.security_groups or [self._head_security_group.ref]`.
When the configuration supplies a (truthy) security-group list, the returned
object IS the configuration's list, so `extend` mutates the `ClusterConfig`.
The mutable head-node networking section is modelled as explicit state. -/

structure HeadNetworkingState where
  securityGroups : Option (List String)
  additionalSecurityGroups : Option (List String)
  deriving Repr, DecidableEq

/-- `_get_head_node_security_groups` plus the aliasing information: whether the
returned list is the configuration's own list object. -/
def getHeadNodeSecurityGroups (st : HeadNetworkingState) (headSecurityGroup : String) :
    List String × Bool :=
  match st.securityGroups with
  | some l => if l.isEmpty then ([headSecurityGroup], false) else (l, true)
  | none => ([headSecurityGroup], false)

/-- `_get_head_node_security_groups_full`: returns the combined list and the
head-node networking state after the call (the state changes exactly when the
returned base list aliases the configuration's list and `extend` ran on it). -/
def getHeadNodeSecurityGroupsFull (st : HeadNetworkingState) (headSecurityGroup : String) :
    List String × HeadNetworkingState :=
  let (base, aliased) := getHeadNodeSecurityGroups st headSecurityGroup
  let full :=
    match st.additionalSecurityGroups with
    | some add => if add.isEmpty then base else base ++ add
    | none => base
  if aliased && !(match st.additionalSecurityGroups with
                  | some add => add.isEmpty
                  | none => true) then
    (full, { st with securityGroups := some full })
  else
    (full, st)

/-- During synthesis `_get_head_node_security_groups_full` is called twice:
once by `_add_head_eni` (the ENI `group_set`) and once by `_add_head_node`
(the launch-template interface `groups`).  Returns both resolved lists and the
final head-node networking state. -/
def headSecurityGroupReads (st : HeadNetworkingState) (headSecurityGroup : String) :
    List String × List String × HeadNetworkingState :=
  let (eniGroups, st1) := getHeadNodeSecurityGroupsFull st headSecurityGroup
  let (launchTemplateGroups, st2) := getHeadNodeSecurityGroupsFull st1 headSecurityGroup
  (eniGroups, launchTemplateGroups, st2)

/-! ## Shared-storage option strings (`_add_fsx_storage`, `_add_efs_storage`,
`_add_raid_volume`, `_add_ebs_volume`)

Each builder joins a fixed field list with `",".join(str(item) for item in [...])`. -/

/-- The FSx option-string field list (in source order), given the resolved
filesystem id. -/
def fsxOptionItems (f : SharedFsx) (fsxId : Option String) : List String :=
  [pyOfStrOpt f.mountDir,
   pyOfStrOpt fsxId,
   pyOrNONE (pyOfIntOpt f.storageCapacity),
   pyOrNONE (pyOfStrOpt f.kmsKeyId),
   pyOrNONE (pyOfIntOpt f.importedFileChunkSize),
   pyOrNONE (pyOfStrOpt f.exportPath),
   pyOrNONE (pyOfStrOpt f.importPath),
   pyOrNONE (pyOfStrOpt f.weeklyMaintenanceStartTime),
   pyOrNONE (pyOfStrOpt f.deploymentType),
   pyOrNONE (pyOfIntOpt f.perUnitStorageThroughput),
   pyOrNONE (pyOfStrOpt f.dailyAutomaticBackupStartTime),
   pyOrNONE (pyOfIntOpt f.automaticBackupRetentionDays),
   pyIfNotNoneElseNONE (pyOfBoolOpt f.copyTagsToBackups),
   pyOrNONE (pyOfStrOpt f.backupId),
   pyOrNONE (pyOfStrOpt f.autoImportPolicy),
   pyOrNONE (pyOfStrOpt f.fsxStorageType),
   pyOrNONE (pyOfStrOpt f.driveCacheType),
   pyOfStrOpt f.existingMountName,
   pyOfStrOpt f.existingDnsName].map pyStrOf

def fsxOptionString (f : SharedFsx) (fsxId : Option String) : String :=
  String.intercalate "," (fsxOptionItems f fsxId)

/-- The EFS option-string field list (in source order), given the resolved
filesystem id.  The last two fields are emitted as an unconditional sentinel
(marked "Useless" in the source). -/
def efsOptionItems (e : SharedEfs) (efsId : Option String) : List String :=
  [pyOfStrOpt e.mountDir,
   pyOfStrOpt efsId,
   pyOrNONE (pyOfStrOpt e.performanceMode),
   pyOrNONE (pyOfStrOpt e.kmsKeyId),
   pyOrNONE (pyOfIntOpt e.provisionedThroughput),
   pyIfNotNoneElseNONE (pyOfBoolOpt e.encrypted),
   pyOrNONE (pyOfStrOpt e.throughputMode),
   .pyStr "NONE",
   .pyStr "NONE"].map pyStrOf

def efsOptionString (e : SharedEfs) (efsId : Option String) : String :=
  String.intercalate "," (efsOptionItems e efsId)

/-- The RAID option-string field list (in source order). -/
def raidOptionItems (e : SharedEbs) (r : Raid) : List String :=
  [pyOfStrOpt e.mountDir,
   pyOfIntOpt r.raidType,
   .pyInt r.numberOfVolumes,
   pyOfStrOpt e.volumeType,
   pyOfIntOpt e.size,
   pyOfIntOpt e.iops,
   pyIfNotNoneElseNONE (pyOfBoolOpt e.encrypted),
   pyOrNONE (pyOfStrOpt e.kmsKeyId),
   pyOfIntOpt e.throughput].map pyStrOf

def raidOptionString (e : SharedEbs) (r : Raid) : String :=
  String.intercalate "," (raidOptionItems e r)

/-- `_add_ebs_volume` appends the mount dir (rendered with an f-string, hence
Python `str`) to the accumulated comma-joined EBS option string. -/
def ebsOptionAppend (current : String) (e : SharedEbs) : String :=
  if current == "" then pyStrOf (pyOfStrOpt e.mountDir)
  else current ++ "," ++ pyStrOf (pyOfStrOpt e.mountDir)

/-! ## External collaborators

Read-only queries to the cloud inventory (`AWSApi`) and the out-of-core helper
routines of `cdk_builder_utils` / `constants` whose sources are outside the
synthesizer module.  They are modelled as an abstract record of functions; the
theorems hold for every behavior of these collaborators. -/

structure External where
  /-- Stack name of the cluster stack. -/
  stackName : String
  /-- CloudFormation stack id (`self.stack_id`). -/
  stackId : String
  /-- Deployment region (`self.region`). -/
  region : String
  /-- Artifact bucket name (`self.bucket.name`). -/
  bucketName : String
  /-- Artifact root directory in the bucket (`self.bucket.artifact_directory`). -/
  artifactDirectory : String
  /-- Configuration artifact object name (`PCLUSTER_S3_ARTIFACTS_DICT["config_name"]`). -/
  configName : String
  /-- `AWSApi.instance().ec2.get_subnet_avail_zone` (memoized inventory query). -/
  subnetAz : String → String
  /-- `AWSApi.instance().efs.get_efs_mount_target_id` (inventory query; `none`
  models a falsy reply meaning no mount target exists in that zone). -/
  efsMountTargetId : Option String → String → Option String
  /-- `AWSApi.instance().ec2.get_eip_allocation_id`. -/
  eipAllocationId : String → String
  /-- Maximum network-interface count supported by an instance type, as served
  by the instance-type inventory data. -/
  supportedNetworkInterfaceCount : String → Nat
  /-- `OS_MAPPING[os]["user"]` (constant table outside the module). -/
  osUser : String → String
  /-- `get_user_data_content("../resources/head_node/user_data.sh")`. -/
  headUserDataTemplate : String
  /-- `get_user_data_content("../resources/compute_node/user_data.sh")`. -/
  computeUserDataTemplate : String
  /-- `get_common_user_data_env(head_node, config)` (helper outside the module;
  a function of the configuration only). -/
  headCommonUserDataEnv : List (String × String)
  /-- `get_common_user_data_env(queue, config)` per queue name. -/
  queueCommonUserDataEnv : String → List (String × String)
  /-- `join_shell_args` (helper outside the module). -/
  shellArgsJoin : List String → String
  /-- `create_hash_suffix` (deterministic short hash, helper outside the module). -/
  hashSuffix : String → String
  /-- `CW_LOG_GROUP_NAME_PREFIX` (constant outside the module). -/
  cwLogGroupNameBase : String
  /-- Hosted zone (ref, name) created by `SlurmConstruct` (source outside the
  module); deterministic given the configuration. -/
  slurmHostedZoneRefName : Option (String × String)
  /-- DynamoDB table ref created by `SlurmConstruct` (source outside the
  module). -/
  slurmDynamoTableRef : String

/-- `_get_compute_security_groups`: the user-supplied compute security groups
plus the managed compute security group when one was created. -/
def getComputeSecurityGroups (cfg : ClusterConfig) (computeSecurityGroup : Option String) :
    List String :=
  match computeSecurityGroup with
  | some ref => cfg.computeSecurityGroups ++ [ref]
  | none => cfg.computeSecurityGroups

/-! ## FSx storage (`_add_fsx_storage`) -/

structure LustreConfiguration where
  deploymentType : Option String
  dataCompressionType : Option String
  importedFileChunkSize : Option Int
  exportPath : Option String
  importPath : Option String
  weeklyMaintenanceStartTime : Option String
  automaticBackupRetentionDays : Option Int
  copyTagsToBackups : Option Bool
  dailyAutomaticBackupStartTime : Option String
  perUnitStorageThroughput : Option Int
  autoImportPolicy : Option String
  driveCacheType : Option String
  deriving Repr, DecidableEq

structure CfnFsxFileSystem where
  logicalId : String
  storageCapacity : Option Int
  lustreConfiguration : LustreConfiguration
  backupId : Option String
  kmsKeyId : Option String
  fileSystemType : String
  storageType : Option String
  subnetIds : List String
  securityGroupIds : List String
  deriving Repr, DecidableEq

/-- Drive-cache defaulting of `_add_fsx_storage`: must be set for HDD (either
the explicit value when truthy, else the literal "NONE"), and must not be set
otherwise. -/
def fsxDriveCacheType (f : SharedFsx) : Option String :=
  if f.fsxStorageType == some "HDD" then
    if pyTruthyStrOpt f.driveCacheType then f.driveCacheType else some "NONE"
  else none

/-! ## EFS storage and mount targets (`_add_efs_storage`, `_add_efs_mount_target`) -/

structure CfnMountTarget where
  logicalId : String
  fileSystemId : Option String
  securityGroups : List String
  subnetId : String
  deriving Repr, DecidableEq

/-- `_add_efs_mount_target`: creates a mount target for the subnet's
availability zone unless that zone was already checked; for a reused filesystem
the inventory is consulted first.  Returns the created resources (zero or one)
and the updated checked-zone list. -/
def addEfsMountTarget (ext : External) (efsCfnResourceId : String) (fileSystemId : Option String)
    (securityGroups : List String) (subnetId : String) (checkedAvailabilityZones : List String)
    (newFileSystem : Bool) : List CfnMountTarget × List String :=
  let availabilityZone := ext.subnetAz subnetId
  if availabilityZone ∈ checkedAvailabilityZones then ([], checkedAvailabilityZones)
  else
    let created :=
      if newFileSystem || !(pyTruthyStrOpt (ext.efsMountTargetId fileSystemId availabilityZone)) then
        [{ logicalId := efsCfnResourceId ++ "MT" ++ availabilityZone,
           fileSystemId := fileSystemId, securityGroups := securityGroups,
           subnetId := subnetId }]
      else []
    (created, checkedAvailabilityZones ++ [availabilityZone])

/-- The loop of `_add_efs_storage` over the compute subnets, threading the
checked-zone list. -/
def addEfsMountTargetsOverSubnets (ext : External) (efsCfnResourceId : String)
    (fileSystemId : Option String) (securityGroups : List String) (newFileSystem : Bool) :
    List String → List String → List CfnMountTarget × List String
  | [], checked => ([], checked)
  | subnetId :: rest, checked =>
    let step :=
      addEfsMountTarget ext efsCfnResourceId fileSystemId securityGroups subnetId checked
        newFileSystem
    let more :=
      addEfsMountTargetsOverSubnets ext efsCfnResourceId fileSystemId securityGroups
        newFileSystem rest step.2
    (step.1 ++ more.1, more.2)

/-- All mount targets created by `_add_efs_storage` (compute subnets first,
then the head-node subnet, sharing one checked-zone list), together with the
final checked-zone list (the zones for which a creation decision was made). -/
def efsMountTargetsWithDecisions (ext : External) (cfg : ClusterConfig)
    (efsCfnResourceId : String) (fileSystemId : Option String) (newFileSystem : Bool)
    (computeNodeSgs : List String) : List CfnMountTarget × List String :=
  let computePass :=
    addEfsMountTargetsOverSubnets ext efsCfnResourceId fileSystemId computeNodeSgs
      newFileSystem cfg.computeSubnetIds []
  let headStep :=
    addEfsMountTarget ext efsCfnResourceId fileSystemId computeNodeSgs
      cfg.headNode.networking.subnetId computePass.2 newFileSystem
  (computePass.1 ++ headStep.1, headStep.2)

/-! ## Shared-storage accumulator state

`ClusterCdkStack.__init__` initializes `shared_storage_mappings`,
`shared_storage_options` and `shared_storage_attributes`; the storage helpers
mutate them.  They are modelled as an explicit record, together with the
created resources. -/

structure CfnVolume where
  logicalId : String
  availabilityZone : String
  encrypted : Option Bool
  iops : Option Int
  throughput : Option Int
  kmsKeyId : Option String
  size : Option Int
  snapshotId : Option String
  volumeType : Option String
  deriving Repr, DecidableEq

structure StorageState where
  ebsIds : List (Option String)
  efsIds : List (Option String)
  fsxIds : List (Option String)
  raidIds : List (Option String)
  ebsOptions : String
  efsOptions : String
  fsxOptions : String
  raidOptions : String
  /-- `shared_storage_attributes[FSX]["MountName"]`; `none` models an absent key. -/
  fsxMountName : Option PyVal
  /-- `shared_storage_attributes[FSX]["DNSName"]`; `none` models an absent key. -/
  fsxDnsName : Option PyVal
  createdVolumes : List CfnVolume
  createdFsxFileSystems : List CfnFsxFileSystem
  createdEfsFileSystems : List String
  mountTargets : List CfnMountTarget
  deriving Repr, DecidableEq

def initStorageState : StorageState :=
  { ebsIds := [], efsIds := [], fsxIds := [], raidIds := [],
    ebsOptions := "", efsOptions := "", fsxOptions := "", raidOptions := "",
    fsxMountName := none, fsxDnsName := none,
    createdVolumes := [], createdFsxFileSystems := [], createdEfsFileSystems := [],
    mountTargets := [] }

/-- `_add_fsx_storage`: either reuses the supplied filesystem id or (when no id
is supplied and a mount dir is) creates a `CfnFileSystem`; records the
MountName / DNSName attributes and overwrites the FSx option string. -/
def addFsxStorage (ext : External) (cfg : ClusterConfig) (computeSecurityGroup : Option String)
    (st : StorageState) (rid : String) (f : SharedFsx) : Option String × StorageState :=
  let st := { st with fsxMountName := some (pyOfStrOpt f.existingMountName),
                      fsxDnsName := some (pyOfStrOpt f.existingDnsName) }
  if !(pyTruthyStrOpt f.fileSystemId) && pyTruthyStrOpt f.mountDir then
    let resource : CfnFsxFileSystem :=
      { logicalId := rid,
        storageCapacity := f.storageCapacity,
        lustreConfiguration :=
          { deploymentType := f.deploymentType,
            dataCompressionType := f.dataCompressionType,
            importedFileChunkSize := f.importedFileChunkSize,
            exportPath := f.exportPath,
            importPath := f.importPath,
            weeklyMaintenanceStartTime := f.weeklyMaintenanceStartTime,
            automaticBackupRetentionDays := f.automaticBackupRetentionDays,
            copyTagsToBackups := f.copyTagsToBackups,
            dailyAutomaticBackupStartTime := f.dailyAutomaticBackupStartTime,
            perUnitStorageThroughput := f.perUnitStorageThroughput,
            autoImportPolicy := f.autoImportPolicy,
            driveCacheType := fsxDriveCacheType f },
        backupId := f.backupId,
        kmsKeyId := f.kmsKeyId,
        fileSystemType := "LUSTRE",
        storageType := f.fsxStorageType,
        subnetIds := cfg.computeSubnetIds,
        securityGroupIds := getComputeSecurityGroups cfg computeSecurityGroup }
    let fsxId := some rid
    let st := { st with createdFsxFileSystems := st.createdFsxFileSystems ++ [resource],
                        fsxMountName := some (.pyStr (rid ++ ".LustreMountName")) }
    (fsxId, { st with fsxOptions := fsxOptionString f fsxId })
  else
    let fsxId := f.fileSystemId
    (fsxId, { st with fsxOptions := fsxOptionString f fsxId })

/-- `_add_efs_storage`: creates a filesystem when no id is supplied and a mount
dir is, creates the per-zone mount targets, and overwrites the EFS option
string. -/
def addEfsStorage (ext : External) (cfg : ClusterConfig) (computeSecurityGroup : Option String)
    (st : StorageState) (rid : String) (e : SharedEfs) : Option String × StorageState :=
  let newFileSystem := e.fileSystemId.isNone
  let (efsId, st) :=
    if !(pyTruthyStrOpt e.fileSystemId) && pyTruthyStrOpt e.mountDir then
      (some rid, { st with createdEfsFileSystems := st.createdEfsFileSystems ++ [rid] })
    else
      (e.fileSystemId, st)
  let computeNodeSgs := getComputeSecurityGroups cfg computeSecurityGroup
  let (targets, _checked) :=
    efsMountTargetsWithDecisions ext cfg rid efsId newFileSystem computeNodeSgs
  (efsId, { st with mountTargets := st.mountTargets ++ targets,
                    efsOptions := efsOptionString e efsId })

/-- `_add_cfn_volume`: the created `CfnVolume` resource. -/
def mkCfnVolume (cfg : ClusterConfig) (e : SharedEbs) (logicalId : String) : CfnVolume :=
  { logicalId := logicalId,
    availabilityZone := cfg.headNode.networking.availabilityZone,
    encrypted := e.encrypted, iops := e.iops, throughput := e.throughput,
    kmsKeyId := e.kmsKeyId, size := e.size, snapshotId := e.snapshotId,
    volumeType := e.volumeType }

/-- `_add_raid_volume`: creates the configured number of volumes and overwrites
the RAID option string; returns the created ids in creation order. -/
def addRaidVolume (cfg : ClusterConfig) (st : StorageState) (idBase : String) (e : SharedEbs)
    (r : Raid) : List (Option String) × StorageState :=
  let volumes := (List.range r.numberOfVolumes).map fun index =>
    mkCfnVolume cfg e (idBase ++ "Volume" ++ toString index)
  let ids := volumes.map fun v => some v.logicalId
  (ids, { st with createdVolumes := st.createdVolumes ++ volumes,
                  raidOptions := raidOptionString e r })

/-- `_add_ebs_volume`: reuses the supplied volume id, or creates a volume when
a mount dir is supplied; appends the mount dir to the EBS option string.  The
returned id is `none` when neither a volume id nor a mount dir is supplied. -/
def addEbsVolume (cfg : ClusterConfig) (st : StorageState) (logicalId : String) (e : SharedEbs) :
    Option String × StorageState :=
  let (ebsId, st) :=
    if !(pyTruthyStrOpt e.volumeId) && pyTruthyStrOpt e.mountDir then
      (some logicalId, { st with createdVolumes := st.createdVolumes ++ [mkCfnVolume cfg e logicalId] })
    else
      (e.volumeId, st)
  (ebsId, { st with ebsOptions := ebsOptionAppend st.ebsOptions e })

/-- `_add_shared_storage`: dispatches on the storage variant; the CFN resource
id is the variant name followed by the current length of that variant's id
list, and the resulting id (or ids, for RAID) are appended to that list. -/
def addSharedStorage (ext : External) (cfg : ClusterConfig)
    (computeSecurityGroup : Option String) (st : StorageState) (s : SharedStorage) :
    StorageState :=
  match s with
  | .fsx f =>
    let rid := "FSX" ++ toString st.fsxIds.length
    let (fsxId, st') := addFsxStorage ext cfg computeSecurityGroup st rid f
    { st' with fsxIds := st'.fsxIds ++ [fsxId] }
  | .ebs e =>
    let rid := "EBS" ++ toString st.ebsIds.length
    let (ebsId, st') := addEbsVolume cfg st rid e
    { st' with ebsIds := st'.ebsIds ++ [ebsId] }
  | .efs e =>
    let rid := "EFS" ++ toString st.efsIds.length
    let (efsId, st') := addEfsStorage ext cfg computeSecurityGroup st rid e
    { st' with efsIds := st'.efsIds ++ [efsId] }
  | .raid e r =>
    let rid := "RAID" ++ toString st.raidIds.length
    let (ids, st') := addRaidVolume cfg st rid e r
    { st' with raidIds := st'.raidIds ++ ids }

/-- Processing of the whole shared-storage declaration list, in configured
order. -/
def synthSharedStorage (ext : External) (cfg : ClusterConfig)
    (computeSecurityGroup : Option String) : StorageState :=
  cfg.sharedStorage.foldl (addSharedStorage ext cfg computeSecurityGroup) initStorageState

/-- The `{type}Ids` stack output of `_add_outputs`:
`",".join(storage.id for storage in storage_list)`.  Python `str.join` raises
on a `None` id, so the value is partial (`none` models the raise). -/
def storageIdsOutputValue (ids : List (Option String)) : Option String :=
  pyJoinIds ids

/-- The resolved EFS filesystem id used for the option string: the created
resource's ref when a filesystem is created, otherwise the declared id. -/
def resolvedEfsId (e : SharedEfs) (rid : String) : Option String :=
  if !(pyTruthyStrOpt e.fileSystemId) && pyTruthyStrOpt e.mountDir then some rid
  else e.fileSystemId

/-- The resolved FSx filesystem id used for the option string. -/
def resolvedFsxId (f : SharedFsx) (rid : String) : Option String :=
  if !(pyTruthyStrOpt f.fileSystemId) && pyTruthyStrOpt f.mountDir then some rid
  else f.fileSystemId

/-- The availability zone a mount target was created in (the zone of its
subnet). -/
def mtAz (ext : External) (mt : CfnMountTarget) : String :=
  ext.subnetAz mt.subnetId

/-- Invariant facts about one mount-target pass over a subnet list: the
checked-zone list only grows by fresh, duplicate-free zones originating from
the processed subnets; every processed subnet's zone ends up checked; created
targets sit in zones that were not checked before and are checked after; at
most one target is created per zone; and for a reused filesystem a target is
created only when the inventory reports none in its zone. -/
structure MountPassFacts (ext : External) (fileSystemId : Option String)
    (newFileSystem : Bool) (sns checked : List String)
    (result : List CfnMountTarget × List String) : Prop where
  checkedExtends : ∃ fresh, result.2 = checked ++ fresh ∧ fresh.Nodup ∧
    (∀ a ∈ fresh, a ∉ checked) ∧ (∀ a ∈ fresh, ∃ s ∈ sns, ext.subnetAz s = a)
  covers : ∀ s ∈ sns, ext.subnetAz s ∈ result.2
  createdFresh : ∀ mt ∈ result.1, mtAz ext mt ∉ checked ∧ mtAz ext mt ∈ result.2
  createdNodup : (result.1.map (mtAz ext)).Nodup
  reusedOnlyWhenAbsent : newFileSystem = false → ∀ mt ∈ result.1,
    pyTruthyStrOpt (ext.efsMountTargetId fileSystemId (mtAz ext mt)) = false

/-! ## Scheduler-dependent resource subsets (`_add_resources`)

The construct tree is flattened to the list of resource kinds added by
`_add_resources`, in call order. -/

inductive ResourceKind where
  | cloudWatchLogGroup
  | headSecurityGroup
  | computeSecurityGroup
  | headEni
  | additionalCfnStack
  | cleanupResourcesLambda
  | slurmHostedZone
  | slurmDynamoTable
  | computeFleet
  | byosSubstack
  | waitCondition
  | headNode
  | batchComputeEnvironment
  | batchJobQueue
  | cwDashboard
  deriving Repr, DecidableEq

/-- Modelled from the spec: the resource subset contributed by
`SlurmConstruct` (`slurm_builder.py` is not among the sources) — the managed
scheduler adds a private DNS zone (hosted zone) and a durable state table. -/
def slurmConstructResources : List ResourceKind :=
  [.slurmHostedZone, .slurmDynamoTable]

/-- Modelled from the spec: the resource subset contributed by
`AwsBatchConstruct` (`awsbatch_builder.py` is not among the sources) —
managed-batch adds a compute-environment / job-queue pair. -/
def awsBatchConstructResources : List ResourceKind :=
  [.batchComputeEnvironment, .batchJobQueue]

/-- The resource kinds added by `_add_resources`, in source order. -/
def addResourcesKinds (cfg : ClusterConfig) : List ResourceKind :=
  (if cfg.isCwLoggingEnabled then [.cloudWatchLogGroup] else []) ++
  (if headSecurityGroupManaged cfg then [.headSecurityGroup] else []) ++
  (if computeSecurityGroupManaged cfg then [.computeSecurityGroup] else []) ++
  [.headEni] ++
  (if pyTruthyStrOpt cfg.additionalResources then [.additionalCfnStack] else []) ++
  [.cleanupResourcesLambda] ++
  (if conditionIsSlurm cfg then slurmConstructResources else []) ++
  (if !(conditionIsBatch cfg) then [.computeFleet] else []) ++
  (if conditionIsByos cfg && cfg.byosTemplateProvided then [.byosSubstack] else []) ++
  [.waitCondition, .headNode] ++
  (if conditionIsBatch cfg then awsBatchConstructResources else []) ++
  (if cfg.isCwDashboardEnabled then [.cwDashboard] else [])

/-- `_add_head_node` adds the dependency edge from the head node to the
compute fleet only on the non-batch path
(`if not self._condition_is_batch(): head_node_instance.node.add_dependency(...)`). -/
def headNodeDependsOnComputeFleet (cfg : ClusterConfig) : Bool :=
  !(conditionIsBatch cfg)

/-! ## Compute fleet launch templates (`ComputeFleetConstruct`) -/

def efaEnabled (cr : ComputeResource) : Bool :=
  match cr.efa with
  | some e => e.enabled
  | none => false

def efaGdrEnabled (cr : ComputeResource) : Bool :=
  match cr.efa with
  | some e => e.gdrSupport
  | none => false

structure NetworkInterfaceProperty where
  deviceIndex : Nat
  networkCardIndex : Option Nat
  associatePublicIpAddress : Option Bool
  interfaceType : Option String
  groups : List String
  subnetId : String
  deriving Repr, DecidableEq

/-- The launch-template network interfaces of
`_add_compute_resource_launch_template`: a primary interface (public-ip
assignment only for single-interface instance types, EFA flag when enabled)
followed by one interface per extra device index. -/
def computeLtNetworkInterfaces (queue : Queue) (cr : ComputeResource)
    (queueLtSecurityGroups : List String) : List NetworkInterfaceProperty :=
  { deviceIndex := 0,
    networkCardIndex := none,
    associatePublicIpAddress :=
      if cr.maxNetworkInterfaceCount == 1 then some queue.networking.assignPublicIp else none,
    interfaceType := if efaEnabled cr then some "efa" else none,
    groups := queueLtSecurityGroups,
    subnetId := queue.networking.subnetIds.headD "" } ::
  (List.range' 1 (cr.maxNetworkInterfaceCount - 1)).map fun deviceIndex =>
    { deviceIndex := deviceIndex,
      networkCardIndex := some deviceIndex,
      associatePublicIpAddress := none,
      interfaceType := if efaEnabled cr then some "efa" else none,
      groups := queueLtSecurityGroups,
      subnetId := queue.networking.subnetIds.headD "" }

structure SpotOptions where
  spotInstanceType : String
  instanceInterruptionBehavior : String
  maxPrice : Option String
  deriving Repr, DecidableEq

structure InstanceMarketOptions where
  marketType : String
  spotOptions : SpotOptions
  deriving Repr, DecidableEq

/-- On-demand templates omit market options; spot templates set a one-time
request with terminate-on-interruption and an optional max price. -/
def instanceMarketOptionsOf (queue : Queue) (cr : ComputeResource) :
    Option InstanceMarketOptions :=
  if queue.capacityType = CapacityType.spot then
    some { marketType := "spot",
           spotOptions := { spotInstanceType := "one-time",
                            instanceInterruptionBehavior := "terminate",
                            maxPrice := cr.spotPrice.map toString } }
  else none

/-- `_add_placement_groups`: a placement group is synthesized once per queue
when placement is enabled and no explicit group id was supplied. -/
def managedPlacementGroupRef (ext : External) (q : Queue) : Option String :=
  match q.networking.placementGroup with
  | some pg =>
    if pg.enabled && !(pyTruthyStrOpt pg.id) then
      some ("PlacementGroup" ++ ext.hashSuffix q.name)
    else none
  | none => none

/-- The placement group name used by a queue's launch templates. -/
def queuePlacementGroup (ext : External) (q : Queue) : Option String :=
  match q.networking.placementGroup with
  | some pg =>
    if pg.enabled then
      if pyTruthyStrOpt pg.id then pg.id else managedPlacementGroupRef ext q
    else none
  | none => none

/-- Modelled from the spec: `get_queue_security_groups_full` (a
`cdk_builder_utils` helper, not among the sources) resolves the full compute
security-group set of a queue — the queue's own groups or the managed compute
security group, plus any additional groups. -/
def getQueueSecurityGroupsFull (computeSecurityGroup : Option String) (q : Queue) :
    List String :=
  (match q.networking.securityGroups with
   | some l =>
     if l.isEmpty then (match computeSecurityGroup with | some r => [r] | none => []) else l
   | none => (match computeSecurityGroup with | some r => [r] | none => [])) ++
  (match q.networking.additionalSecurityGroups with
   | some l => l
   | none => [])

structure CfnLaunchTemplate where
  logicalId : String
  launchTemplateName : String
  instanceType : String
  networkInterfaces : List NetworkInterfaceProperty
  placementGroupName : Option String
  marketOptions : Option InstanceMarketOptions
  deriving Repr, DecidableEq

/-- A configuration-consistency error; carries the path of the offending
compute resource. -/
structure ValidationError where
  message : String
  computeResourceName : String
  deriving Repr, DecidableEq

/-- Modelled from the spec: the validation that a compute resource's requested
network-interface count does not exceed what its instance type supports is
performed by the configuration/validation layer, which is not among the
sources (only its caller,
`ComputeFleetConstruct._add_compute_resource_launch_template`, is).  Per the
spec's failure policy it fails closed with a `ValidationError` identifying the
offending compute resource. -/
def validateNetworkInterfaceCount (ext : External) (cr : ComputeResource) :
    Except ValidationError Unit :=
  if ext.supportedNetworkInterfaceCount cr.instanceType < cr.maxNetworkInterfaceCount then
    .error { message := "requested network interface count exceeds what the instance type supports",
             computeResourceName := cr.name }
  else .ok ()

/-- `_add_compute_resource_launch_template`, guarded by the spec-modelled
network-interface validation: on success, one capacity template for the
(queue, compute-resource) pair. -/
def buildComputeResourceLaunchTemplate (ext : External) (queue : Queue)
    (cr : ComputeResource) (queueLtSecurityGroups : List String)
    (queuePlacement : Option String) : Except ValidationError CfnLaunchTemplate := do
  let _ ← validateNetworkInterfaceCount ext cr
  pure { logicalId := "LaunchTemplate" ++ ext.hashSuffix (queue.name ++ cr.instanceType),
         launchTemplateName := ext.stackName ++ "-" ++ queue.name ++ "-" ++ cr.instanceType,
         instanceType := cr.instanceType,
         networkInterfaces := computeLtNetworkInterfaces queue cr queueLtSecurityGroups,
         placementGroupName := queuePlacement,
         marketOptions := instanceMarketOptionsOf queue cr }

/-- Error-propagating map over a list: the first failing element aborts the
whole construction. -/
def exceptMapList (f : α → Except ε β) : List α → Except ε (List β)
  | [] => .ok []
  | a :: as =>
    match f a with
    | .error e => .error e
    | .ok b =>
      match exceptMapList f as with
      | .error e => .error e
      | .ok bs => .ok (b :: bs)

/-- `_add_launch_templates` restricted to one queue. -/
def buildQueueLaunchTemplates (ext : External) (computeSecurityGroup : Option String)
    (queue : Queue) : Except ValidationError (List CfnLaunchTemplate) :=
  let queueLtSecurityGroups := getQueueSecurityGroupsFull computeSecurityGroup queue
  exceptMapList
    (fun cr => buildComputeResourceLaunchTemplate ext queue cr queueLtSecurityGroups
      (queuePlacementGroup ext queue))
    queue.computeResources

/-- `_add_launch_templates` over all queues; any validation error aborts the
whole synthesis. -/
def buildLaunchTemplates (ext : External) (cfg : ClusterConfig)
    (computeSecurityGroup : Option String) :
    Except ValidationError (List (String × List CfnLaunchTemplate)) :=
  exceptMapList
    (fun q => (buildQueueLaunchTemplates ext computeSecurityGroup q).map fun ls => (q.name, ls))
    cfg.scheduling.queues

/-! ## Bootstrap payloads (`__init__`, `_add_wait_condition`, `_add_head_node`)

`__init__` samples `datetime.utcnow()` into a seconds-precision suffix (used in
the wait-condition resource ids, regenerated on every synthesis so that an
update replaces the wait condition) and a minutes-precision suffix (appended to
the generated log-group name on create only; on update the existing name is
passed in and preserved). -/

structure SynthesisTime where
  /-- `datetime.utcnow().strftime("%Y%m%d%H%M%S")` (`self.timestamp`). -/
  seconds : String
  /-- `datetime.utcnow().strftime("%Y%m%d%H%M")` (the log-group suffix). -/
  minutes : String
  deriving Repr, DecidableEq

/-- The resolved CloudWatch log-group name: preserved when passed in (update),
generated with a timestamp suffix otherwise (create). -/
def resolveLogGroupName (ext : External) (logGroupNameParam : Option String)
    (timestampMinutes : String) : String :=
  match logGroupNameParam with
  | some name => name
  | none => ext.cwLogGroupNameBase ++ ext.stackName ++ "-" ++ timestampMinutes

/-- `_add_wait_condition` handle: the ref token of
`HeadNodeWaitConditionHandle{timestamp}`, modelled by its logical id. -/
def waitConditionHandleRef (t : SynthesisTime) : String :=
  "HeadNodeWaitConditionHandle" ++ t.seconds

/-- `_add_byos_substack`: present only on the bring-your-own-scheduler path
with a configured nested-template reference. -/
def byosSubstackRef (cfg : ClusterConfig) : Option String :=
  if conditionIsByos cfg && cfg.byosTemplateProvided then some "ByosStack" else none

def vstr (s : String) : Option PyVal := some (.pyStr s)

/-- A per-storage-type id summary placed in the bootstrap payloads
(`get_shared_storage_ids_by_type`, a `cdk_builder_utils` helper not among the
sources; modelled from the spec's "per-storage-type id list", joined like the
in-source `{type}Ids` output, partial on an absent id). -/
def vids (ids : List (Option String)) : Option PyVal :=
  (pyJoinIds ids).map PyVal.pyStr

/-- The ordered `dna.json` `cluster` document of `_add_head_node`, one entry
per source key.  A `none` value models a field whose computation raises. -/
def dnaJson (ext : External) (cfg : ClusterConfig) (storage : StorageState)
    (resolvedLogGroupName : String) : List (String × Option PyVal) :=
  let headNode := cfg.headNode
  let preInstallAction := headNode.customActions.bind (·.onNodeStart)
  let postInstallAction := headNode.customActions.bind (·.onNodeConfigured)
  [("stack_name", vstr ext.stackName),
   ("stack_arn", vstr ext.stackId),
   ("byos_substack_arn", vstr ((byosSubstackRef cfg).getD "")),
   ("raid_vol_ids", vids storage.raidIds),
   ("raid_parameters", vstr storage.raidOptions),
   ("disable_hyperthreading_manually",
    vstr (if headNode.disableSimultaneousMultithreadingManually then "true" else "false")),
   ("base_os", vstr cfg.image.os),
   ("preinstall",
    vstr (match preInstallAction with | some a => a.script | none => "NONE")),
   ("preinstall_args",
    vstr (match preInstallAction with
          | some a => if a.args.isEmpty then "NONE" else ext.shellArgsJoin a.args
          | none => "NONE")),
   ("postinstall",
    vstr (match postInstallAction with | some a => a.script | none => "NONE")),
   ("postinstall_args",
    vstr (match postInstallAction with
          | some a => if a.args.isEmpty then "NONE" else ext.shellArgsJoin a.args
          | none => "NONE")),
   ("region", vstr ext.region),
   ("efs_fs_id", vids storage.efsIds),
   ("efs_shared_dir", vstr storage.efsOptions),
   ("fsx_fs_id", vids storage.fsxIds),
   ("fsx_mount_name", some (storage.fsxMountName.getD (.pyStr ""))),
   ("fsx_dns_name", some (storage.fsxDnsName.getD (.pyStr ""))),
   ("fsx_options", vstr storage.fsxOptions),
   ("volume", vids storage.ebsIds),
   ("scheduler", vstr cfg.scheduling.scheduler),
   ("ephemeral_dir", vstr (headNode.ephemeralVolumeMountDir.getD "/scratch")),
   ("ebs_shared_dirs", vstr storage.ebsOptions),
   ("proxy",
    vstr (match headNode.networking.proxy with
          | some p => p.httpProxyAddress
          | none => "NONE")),
   ("dns_domain",
    vstr (if conditionIsSlurm cfg then
            match ext.slurmHostedZoneRefName with
            | some (_, name) => name
            | none => ""
          else "")),
   ("hosted_zone",
    vstr (if conditionIsSlurm cfg then
            match ext.slurmHostedZoneRefName with
            | some (ref, _) => ref
            | none => ""
          else "")),
   ("node_type", vstr "HeadNode"),
   ("cluster_user", vstr (ext.osUser cfg.image.os)),
   ("ddb_table",
    vstr (if conditionIsSlurm cfg then ext.slurmDynamoTableRef else "NONE")),
   ("log_group_name",
    vstr (if cfg.isCwLoggingEnabled then resolvedLogGroupName else "NONE")),
   ("dcv_enabled", vstr (if cfg.isDcvEnabled then "head_node" else "false")),
   ("dcv_port",
    some (match headNode.dcv with | some d => .pyInt d.port | none => .pyStr "NONE")),
   ("enable_intel_hpc_platform",
    vstr (if cfg.isIntelHpcPlatformEnabled then "true" else "false")),
   ("cw_logging_enabled", vstr (if cfg.isCwLoggingEnabled then "true" else "false")),
   ("cluster_s3_bucket", vstr ext.bucketName),
   ("cluster_config_s3_key",
    vstr (ext.artifactDirectory ++ "/configs/" ++ ext.configName)),
   ("cluster_config_version", vstr cfg.configVersion),
   ("instance_types_data_s3_key",
    vstr (ext.artifactDirectory ++ "/configs/instance-types-data.json")),
   ("custom_node_package", vstr (cfg.customNodePackage.getD "")),
   ("custom_awsbatchcli_package", vstr (cfg.customAwsBatchCliPackage.getD "")),
   ("head_node_imds_secured", vstr (if headNode.imdsSecured then "true" else "false"))]

/-- A single-quote character, for shell command content. -/
def sq : String := String.singleton (Char.ofNat 39)

def clientRbFileContent : String :=
  "cookbook_path [" ++ sq ++ "/etc/chef/cookbooks" ++ sq ++ "]"

def chefUpdateCommandOf (waitHandleRef : String) : String :=
  "chef-client --local-mode --config /etc/chef/client.rb --log_level info " ++
  "--logfile /var/log/chef-client.log --force-formatter --no-color " ++
  "--chef-zero-port 8889 --json-attributes /etc/chef/dna.json " ++
  "--override-runlist aws-parallelcluster::update_head_node || " ++
  "cfn-signal --exit-code=1 --reason=" ++ sq ++ "Chef client failed" ++ sq ++ " " ++
  sq ++ waitHandleRef ++ sq

def sendSignalCommandOf (waitHandleRef : String) : String :=
  "cfn-signal --exit-code=0 --reason=" ++ sq ++ "HeadNode setup complete" ++ sq ++ " " ++
  sq ++ waitHandleRef ++ sq

/-- `_get_launch_templates_config`: queue name → (compute-resource name →
launch-template ref), absent on the batch path. -/
def launchTemplatesConfigOf (ext : External) (cfg : ClusterConfig) :
    Option (List (String × List (String × String))) :=
  if conditionIsBatch cfg then none
  else
    some (cfg.scheduling.queues.map fun q =>
      (q.name, q.computeResources.map fun cr =>
        (cr.name, "LaunchTemplate" ++ ext.hashSuffix (q.name ++ cr.instanceType))))

/-- The head-node bootstrap payload: the CloudFormation::Init document content
of `_add_head_node` (the `dna.json` cluster document and run list, the
deployed file contents, the commands that embed the wait-condition handle ref)
plus the head user data. -/
structure HeadBootstrapPayload where
  dna : List (String × Option PyVal)
  runList : String
  clientRbContent : String
  extraJsonContent : String
  waitHandleFileContent : String
  chefUpdateCommand : String
  sendSignalCommand : String
  userDataTemplate : String
  userDataEnv : List (String × String)
  launchTemplatesConfig : Option (List (String × List (String × String)))
  deriving Repr, DecidableEq

/-- One compute-resource bootstrap payload: the user data of
`_add_compute_resource_launch_template` (template plus substitution
environment; a `none` value models a field whose computation raises). -/
structure ComputeBootstrapPayload where
  userDataTemplate : String
  userDataEnv : List (String × Option String)
  deriving Repr, DecidableEq

/-- The user-data substitution environment of a compute resource, one entry
per source key, followed by the common user-data environment of the queue. -/
def computeUserDataEnv (ext : External) (cfg : ClusterConfig) (storage : StorageState)
    (resolvedLogGroupName : String) (q : Queue) (cr : ComputeResource) :
    List (String × Option String) :=
  let queuePreInstallAction := q.customActions.bind (·.onNodeStart)
  let queuePostInstallAction := q.customActions.bind (·.onNodeConfigured)
  [("EnableEfa", some (if efaEnabled cr then "efa" else "NONE")),
   ("RAIDOptions", some storage.raidOptions),
   ("DisableHyperThreadingManually",
    some (if cr.disableSimultaneousMultithreadingManually then "true" else "false")),
   ("BaseOS", some cfg.image.os),
   ("PreInstallScript",
    some (match queuePreInstallAction with | some a => a.script | none => "NONE")),
   ("PreInstallArgs",
    some (match queuePreInstallAction with
          | some a => if a.args.isEmpty then "NONE" else ext.shellArgsJoin a.args
          | none => "NONE")),
   ("PostInstallScript",
    some (match queuePostInstallAction with | some a => a.script | none => "NONE")),
   ("PostInstallArgs",
    some (match queuePostInstallAction with
          | some a => if a.args.isEmpty then "NONE" else ext.shellArgsJoin a.args
          | none => "NONE")),
   ("EFSId", pyJoinIds storage.efsIds),
   ("EFSOptions", some storage.efsOptions),
   ("FSXId", pyJoinIds storage.fsxIds),
   ("FSXMountName", some (pyStrOf (storage.fsxMountName.getD (.pyStr "")))),
   ("FSXDNSName", some (pyStrOf (storage.fsxDnsName.getD (.pyStr "")))),
   ("FSXOptions", some storage.fsxOptions),
   ("Scheduler", some cfg.scheduling.scheduler),
   ("EphemeralDir", some "/scratch"),
   ("EbsSharedDirs", some storage.ebsOptions),
   ("ClusterDNSDomain",
    some (if conditionIsSlurm cfg then
            match ext.slurmHostedZoneRefName with
            | some (_, name) => name
            | none => ""
          else "")),
   ("ClusterHostedZone",
    some (if conditionIsSlurm cfg then
            match ext.slurmHostedZoneRefName with
            | some (ref, _) => ref
            | none => ""
          else "")),
   ("OSUser", some (ext.osUser cfg.image.os)),
   ("DynamoDBTable",
    some (if conditionIsSlurm cfg then ext.slurmDynamoTableRef else "NONE")),
   ("LogGroupName",
    some (if cfg.isCwLoggingEnabled then resolvedLogGroupName else "NONE")),
   ("IntelHPCPlatform",
    some (if cfg.isIntelHpcPlatformEnabled then "true" else "false")),
   ("CWLoggingEnabled", some (if cfg.isCwLoggingEnabled then "true" else "false")),
   ("QueueName", some q.name),
   ("ComputeResourceName", some cr.name),
   ("EnableEfaGdr", some (if efaGdrEnabled cr then "compute" else "NONE")),
   ("CustomNodePackage", some (cfg.customNodePackage.getD "")),
   ("CustomAwsBatchCliPackage", some (cfg.customAwsBatchCliPackage.getD "")),
   ("ExtraJson", some cfg.extraChefAttributes)] ++
  (ext.queueCommonUserDataEnv q.name).map fun kv => (kv.1, some kv.2)

def computeBootstrapPayload (ext : External) (cfg : ClusterConfig) (storage : StorageState)
    (resolvedLogGroupName : String) (q : Queue) (cr : ComputeResource) :
    ComputeBootstrapPayload :=
  { userDataTemplate := ext.computeUserDataTemplate,
    userDataEnv := computeUserDataEnv ext cfg storage resolvedLogGroupName q cr }

/-- All per-role bootstrap payload documents of one synthesis run: one for the
head node and one per (queue, compute-resource) pair. -/
structure BootstrapPayloads where
  head : HeadBootstrapPayload
  compute : List (String × String × ComputeBootstrapPayload)
  deriving Repr, DecidableEq

/-- One full synthesis of the bootstrap payloads from the configuration, the
external collaborator responses, the optional passed-in log-group name
(update) and the sampled synthesis time. -/
def bootstrapPayloads (ext : External) (cfg : ClusterConfig)
    (logGroupNameParam : Option String) (t : SynthesisTime) : BootstrapPayloads :=
  let computeSecurityGroup := (addSecurityGroups cfg).2.1
  let storage := synthSharedStorage ext cfg computeSecurityGroup
  let resolved := resolveLogGroupName ext logGroupNameParam t.minutes
  let waitHandleRef := waitConditionHandleRef t
  { head :=
      { dna := dnaJson ext cfg storage resolved,
        runList := "recipe[aws-parallelcluster::" ++ cfg.scheduling.scheduler ++ "_config]",
        clientRbContent := clientRbFileContent,
        extraJsonContent := cfg.extraChefAttributes,
        waitHandleFileContent := waitHandleRef,
        chefUpdateCommand := chefUpdateCommandOf waitHandleRef,
        sendSignalCommand := sendSignalCommandOf waitHandleRef,
        userDataTemplate := ext.headUserDataTemplate,
        userDataEnv := ext.headCommonUserDataEnv,
        launchTemplatesConfig := launchTemplatesConfigOf ext cfg },
    compute :=
      cfg.scheduling.queues.flatMap fun q =>
        q.computeResources.map fun cr =>
          (q.name, cr.name, computeBootstrapPayload ext cfg storage resolved q cr) }

/-- Replaces the fields designated create-vs-update variable — the resolved
log-group name entries and the wait-condition handle references — by fixed
values. -/
def scrubHead (p : HeadBootstrapPayload) : HeadBootstrapPayload :=
  { p with
    dna := p.dna.map fun kv => if kv.1 == "log_group_name" then (kv.1, none) else kv,
    waitHandleFileContent := "",
    chefUpdateCommand := "",
    sendSignalCommand := "" }

def scrubCompute (c : ComputeBootstrapPayload) : ComputeBootstrapPayload :=
  { c with
    userDataEnv := c.userDataEnv.map fun kv =>
      if kv.1 == "LogGroupName" then (kv.1, none) else kv }

def scrubPayloads (b : BootstrapPayloads) : BootstrapPayloads :=
  { head := scrubHead b.head,
    compute := b.compute.map fun e => (e.1, e.2.1, scrubCompute e.2.2) }

/-! ## Concrete example values (used by the witnesses) -/

def exampleComputeResource : ComputeResource :=
  { name := "cr1", instanceType := "c5.xlarge", maxNetworkInterfaceCount := 1,
    efa := none, spotPrice := none, disableSimultaneousMultithreadingManually := false }

def exampleQueue : Queue :=
  { name := "q1",
    networking :=
      { subnetIds := ["subnet-1"], securityGroups := none,
        additionalSecurityGroups := none, placementGroup := none, assignPublicIp := false },
    computeResources := [exampleComputeResource],
    capacityType := .onDemand,
    customActions := none }

def exampleHeadNode : HeadNode :=
  { instanceType := "c5.xlarge",
    networking :=
      { subnetId := "subnet-0", availabilityZone := "az-a", securityGroups := none,
        additionalSecurityGroups := none, proxy := none },
    ssh := { keyName := some "key1", allowedIps := "0.0.0.0/0" },
    dcv := none, customActions := none,
    disableSimultaneousMultithreadingManually := false, imdsSecured := true,
    maxNetworkInterfaceCount := 1, ephemeralVolumeMountDir := none }

def exampleConfig : ClusterConfig :=
  { image := { os := "alinux2" },
    headNode := exampleHeadNode,
    scheduling := { scheduler := "slurm", queues := [exampleQueue] },
    sharedStorage := [],
    computeSubnetIds := ["subnet-1"],
    computeSecurityGroups := [],
    vpcId := "vpc-1",
    isCwLoggingEnabled := true,
    isDcvEnabled := false,
    isIntelHpcPlatformEnabled := false,
    extraChefAttributes := "\x7b\x7d",
    customNodePackage := none,
    customAwsBatchCliPackage := none,
    configVersion := "v1",
    byosTemplateProvided := false,
    additionalResources := none,
    isCwDashboardEnabled := false }

/-- A configuration whose head node supplies its own security groups. -/
def exampleConfigExternalHeadSg : ClusterConfig :=
  { exampleConfig with
    headNode :=
      { exampleHeadNode with
        networking := { exampleHeadNode.networking with securityGroups := some ["sg-head"] } } }

/-- A configuration with the managed-batch scheduler. -/
def exampleConfigBatch : ClusterConfig :=
  { exampleConfig with scheduling := { scheduler := "awsbatch", queues := [exampleQueue] } }

/-- A configuration with two compute subnets (which the example inventory
resolves to the same availability zone as the head subnet). -/
def exampleConfigTwoSubnets : ClusterConfig :=
  { exampleConfig with computeSubnetIds := ["subnet-1", "subnet-2"] }

/-- A compute resource requesting three network interfaces. -/
def exampleComputeResourceThreeNics : ComputeResource :=
  { exampleComputeResource with
    name := "cr3"
    maxNetworkInterfaceCount := 3 }

def exampleQueueThreeNics : Queue :=
  { exampleQueue with computeResources := [exampleComputeResourceThreeNics] }

/-- A configuration whose only compute resource requests three network
interfaces (the example inventory supports one). -/
def exampleConfigThreeNics : ClusterConfig :=
  { exampleConfig with
    scheduling := { scheduler := "slurm", queues := [exampleQueueThreeNics] } }

def exampleTime1 : SynthesisTime :=
  { seconds := "20260101010101", minutes := "202601010101" }

def exampleTime2 : SynthesisTime :=
  { seconds := "20260202020202", minutes := "202602020202" }

def exampleExternal : External :=
  { stackName := "clu",
    stackId := "arn:aws:cloudformation:stack/clu/abc",
    region := "us-east-1",
    bucketName := "bucket1",
    artifactDirectory := "parallelcluster/clusters/clu",
    configName := "cluster-config.yaml",
    subnetAz := fun _ => "az-a",
    efsMountTargetId := fun _ _ => none,
    eipAllocationId := fun _ => "eipalloc-1",
    supportedNetworkInterfaceCount := fun _ => 1,
    osUser := fun _ => "ec2-user",
    headUserDataTemplate := "head-user-data",
    computeUserDataTemplate := "compute-user-data",
    headCommonUserDataEnv := [],
    queueCommonUserDataEnv := fun _ => [],
    shellArgsJoin := fun args => String.intercalate " " args,
    hashSuffix := fun s => s,
    cwLogGroupNameBase := "/aws/parallelcluster/",
    slurmHostedZoneRefName := some ("HostedZoneRef", "clu.pcluster"),
    slurmDynamoTableRef := "DynamoTableRef" }

/-- An EFS declaration reusing an existing filesystem, with `encrypted`
explicitly set. -/
def exampleEfsEncrypted : SharedEfs :=
  { name := "efs1", mountDir := some "/shared", fileSystemId := some "fs-12345678",
    encrypted := some true, kmsKeyId := none, performanceMode := none,
    provisionedThroughput := none, throughputMode := none }

/-- An EFS declaration with every optional field absent. -/
def exampleEfsAbsent : SharedEfs :=
  { name := "efs2", mountDir := some "/shared", fileSystemId := some "fs-87654321",
    encrypted := none, kmsKeyId := none, performanceMode := none,
    provisionedThroughput := none, throughputMode := none }

/-- A RAID EBS declaration with `iops`, `size` and `throughput` absent. -/
def exampleRaidEbs : SharedEbs :=
  { name := "raid1", mountDir := some "/raid", volumeId := none, kmsKeyId := none,
    snapshotId := none, volumeType := some "gp2", iops := none, size := none,
    encrypted := none, throughput := none }

def exampleRaid : Raid := { raidType := some 0, numberOfVolumes := 2 }

/-- An EBS declaration supplying neither a volume id nor a mount dir. -/
def exampleEbsEmpty : SharedEbs :=
  { name := "ebs1", mountDir := none, volumeId := none, kmsKeyId := none,
    snapshotId := none, volumeType := none, iops := none, size := none,
    encrypted := none, throughput := none }

/-- An FSx declaration creating a new HDD filesystem with no explicit drive
cache. -/
def exampleFsxHdd : SharedFsx :=
  { name := "fsx1", mountDir := some "/fsx", fileSystemId := none,
    storageCapacity := some 6000, deploymentType := some "PERSISTENT_1",
    dataCompressionType := none, importedFileChunkSize := none, exportPath := none,
    importPath := none, weeklyMaintenanceStartTime := none,
    automaticBackupRetentionDays := none, copyTagsToBackups := none,
    dailyAutomaticBackupStartTime := none, perUnitStorageThroughput := some 12,
    autoImportPolicy := none, backupId := none, kmsKeyId := none,
    fsxStorageType := some "HDD", driveCacheType := none,
    existingMountName := none, existingDnsName := none }

/-- An FSx declaration creating a new SSD filesystem. -/
def exampleFsxSsd : SharedFsx :=
  { exampleFsxHdd with
    name := "fsx2"
    fsxStorageType := some "SSD"
    perUnitStorageThroughput := some 200 }

/-! ## Theorems -/

/-- C1: when both the head-node security group and the compute security group
are synthesized (head supplies no security-group list, at least one queue
supplies no security-group list), `_add_security_groups` creates exactly the
two cross-ingress rules — head accepts all traffic from compute and compute
accepts all traffic from head, each with protocol "-1" over ports 0–65535;
when either side is externally supplied, it creates no cross-ingress rule. -/
theorem cross_ingress_pairing (cfg : ClusterConfig) :
    (headSecurityGroupManaged cfg = true → computeSecurityGroupManaged cfg = true →
      crossIngressRules cfg =
        [{ logicalId := "HeadNodeSecurityGroupComputeIngress", ipProtocol := "-1",
           fromPort := 0, toPort := 65535,
           sourceSecurityGroupId := computeSecurityGroupRef, groupId := headSecurityGroupRef },
         { logicalId := "ComputeSecurityGroupHeadNodeIngress", ipProtocol := "-1",
           fromPort := 0, toPort := 65535,
           sourceSecurityGroupId := headSecurityGroupRef, groupId := computeSecurityGroupRef }] ∧
      (crossIngressRules cfg).length = 2) ∧
    (headSecurityGroupManaged cfg = false ∨ computeSecurityGroupManaged cfg = false →
      crossIngressRules cfg = []) := by
  refine ⟨fun h1 h2 => ?_, fun h => ?_⟩
  · constructor <;> simp [crossIngressRules, addSecurityGroups, h1, h2]
  · rcases h with h | h
    · simp [crossIngressRules, addSecurityGroups, h]
    · cases hh : headSecurityGroupManaged cfg <;>
        simp [crossIngressRules, addSecurityGroups, h, hh]

/-- C1 witness: on a configuration where both sides are managed the two
cross-ingress rules are produced, and on one whose head node supplies its own
security groups none are produced. -/
theorem cross_ingress_pairing_witness :
    crossIngressRules exampleConfig =
      [{ logicalId := "HeadNodeSecurityGroupComputeIngress", ipProtocol := "-1",
         fromPort := 0, toPort := 65535,
         sourceSecurityGroupId := computeSecurityGroupRef, groupId := headSecurityGroupRef },
       { logicalId := "ComputeSecurityGroupHeadNodeIngress", ipProtocol := "-1",
         fromPort := 0, toPort := 65535,
         sourceSecurityGroupId := headSecurityGroupRef, groupId := computeSecurityGroupRef }] ∧
    crossIngressRules exampleConfigExternalHeadSg = [] :=
  ⟨((cross_ingress_pairing exampleConfig).1 (by decide) (by decide)).1,
   (cross_ingress_pairing exampleConfigExternalHeadSg).2 (Or.inl (by decide))⟩

/-- C3 (refutation by evaluation): synthesis mutates the `ClusterConfig`.
With a user-supplied head security-group list ["sg-1"] and additional list
["sg-2"], the two calls to `_get_head_node_security_groups_full` made by
`_add_head_eni` and `_add_head_node` leave the configuration's
security-group list as ["sg-1", "sg-2", "sg-2"], and the two reads return
different, accumulating lists. -/
theorem head_security_groups_mutated_by_synthesis :
    (headSecurityGroupReads
        { securityGroups := some ["sg-1"], additionalSecurityGroups := some ["sg-2"] }
        headSecurityGroupRef).2.2
      = { securityGroups := some ["sg-1", "sg-2", "sg-2"],
          additionalSecurityGroups := some ["sg-2"] }
    ∧ (headSecurityGroupReads
        { securityGroups := some ["sg-1"], additionalSecurityGroups := some ["sg-2"] }
        headSecurityGroupRef).1
      = ["sg-1", "sg-2"]
    ∧ (headSecurityGroupReads
        { securityGroups := some ["sg-1"], additionalSecurityGroups := some ["sg-2"] }
        headSecurityGroupRef).2.1
      = ["sg-1", "sg-2", "sg-2"] := by
  decide

/-- C4 counterexample: in the EFS option string an explicitly set boolean
renders as Python `str(True)` = "True", not the lowercase "true" the claim
states; and in the RAID option string the absent optional `iops` field renders
as Python `str(None)` = "None", not the sentinel "NONE". -/
theorem storage_option_rendering_counterexample :
    (efsOptionItems exampleEfsEncrypted (some "fs-12345678"))[5]? = some "True"
    ∧ "True" ≠ "true"
    ∧ (raidOptionItems exampleRaidEbs exampleRaid)[5]? = some "None"
    ∧ "None" ≠ "NONE" := by
  decide

/-- C4 amended: only the fields guarded by `or "NONE"` (or an explicit
is-not-None check) render the sentinel "NONE" when absent; explicitly set
boolean fields render Python's capitalized `str()` form "True"/"False"; the
unguarded fields (FSx existing mount/DNS names, RAID type, volume type, size,
iops, throughput) render Python's "None" when absent. -/
theorem storage_option_rendering_amended
    (e : SharedEfs) (f : SharedFsx) (r : SharedEbs) (rc : Raid)
    (efsId fsxId : Option String) :
    (e.performanceMode = none → (efsOptionItems e efsId)[2]? = some "NONE")
    ∧ (e.kmsKeyId = none → (efsOptionItems e efsId)[3]? = some "NONE")
    ∧ (e.provisionedThroughput = none → (efsOptionItems e efsId)[4]? = some "NONE")
    ∧ (e.throughputMode = none → (efsOptionItems e efsId)[6]? = some "NONE")
    ∧ (∀ b, e.encrypted = some b →
        (efsOptionItems e efsId)[5]? = some (if b then "True" else "False"))
    ∧ (e.encrypted = none → (efsOptionItems e efsId)[5]? = some "NONE")
    ∧ (∀ b, f.copyTagsToBackups = some b →
        (fsxOptionItems f fsxId)[12]? = some (if b then "True" else "False"))
    ∧ (f.copyTagsToBackups = none → (fsxOptionItems f fsxId)[12]? = some "NONE")
    ∧ (f.driveCacheType = none → (fsxOptionItems f fsxId)[16]? = some "NONE")
    ∧ (f.existingMountName = none → (fsxOptionItems f fsxId)[17]? = some "None")
    ∧ (f.existingDnsName = none → (fsxOptionItems f fsxId)[18]? = some "None")
    ∧ (r.size = none → (raidOptionItems r rc)[4]? = some "None")
    ∧ (r.iops = none → (raidOptionItems r rc)[5]? = some "None")
    ∧ (∀ b, r.encrypted = some b →
        (raidOptionItems r rc)[6]? = some (if b then "True" else "False"))
    ∧ (r.kmsKeyId = none → (raidOptionItems r rc)[7]? = some "NONE")
    ∧ (r.throughput = none → (raidOptionItems r rc)[8]? = some "None") := by
  refine ⟨?_, ?_, ?_, ?_, ?_, ?_, ?_, ?_, ?_, ?_, ?_, ?_, ?_, ?_, ?_, ?_⟩ <;>
    first
      | (intro h
         simp only [efsOptionItems, fsxOptionItems, raidOptionItems, h]
         rfl)
      | (intro b h
         simp only [efsOptionItems, fsxOptionItems, raidOptionItems, h]
         cases b <;> rfl)

/-- C4 amended witness: the amended rendering facts evaluated on concrete
declarations. -/
theorem storage_option_rendering_amended_witness :
    (efsOptionItems exampleEfsAbsent (some "fs-87654321"))[3]? = some "NONE"
    ∧ (efsOptionItems exampleEfsEncrypted (some "fs-12345678"))[5]? = some "True"
    ∧ (raidOptionItems exampleRaidEbs exampleRaid)[5]? = some "None" :=
  ⟨(storage_option_rendering_amended exampleEfsAbsent exampleFsxHdd exampleRaidEbs exampleRaid
      (some "fs-87654321") none).2.1 rfl,
   ((storage_option_rendering_amended exampleEfsEncrypted exampleFsxHdd exampleRaidEbs
      exampleRaid (some "fs-12345678") none).2.2.2.2.1) true rfl,
   ((storage_option_rendering_amended exampleEfsAbsent exampleFsxHdd exampleRaidEbs exampleRaid
      none none).2.2.2.2.2.2.2.2.2.2.2.2.1) rfl⟩

/-- C7: for an FSx declaration that creates a new filesystem (no existing id,
a mount dir), the created `CfnFileSystem`'s drive-cache type is the literal
"NONE" when the storage type is HDD and no drive cache is explicitly set, and
is unset when the storage type is SSD. -/
theorem fsx_drive_cache_defaulting (ext : External) (cfg : ClusterConfig)
    (computeSecurityGroup : Option String) (st : StorageState) (rid : String) (f : SharedFsx)
    (hid : pyTruthyStrOpt f.fileSystemId = false) (hmd : pyTruthyStrOpt f.mountDir = true) :
    ∃ resource : CfnFsxFileSystem,
      (addFsxStorage ext cfg computeSecurityGroup st rid f).2.createdFsxFileSystems
        = st.createdFsxFileSystems ++ [resource]
      ∧ resource.storageType = f.fsxStorageType
      ∧ (f.fsxStorageType = some "HDD" → f.driveCacheType = none →
          resource.lustreConfiguration.driveCacheType = some "NONE")
      ∧ (f.fsxStorageType = some "SSD" →
          resource.lustreConfiguration.driveCacheType = none) := by
  refine ⟨{ logicalId := rid,
            storageCapacity := f.storageCapacity,
            lustreConfiguration :=
              { deploymentType := f.deploymentType,
                dataCompressionType := f.dataCompressionType,
                importedFileChunkSize := f.importedFileChunkSize,
                exportPath := f.exportPath,
                importPath := f.importPath,
                weeklyMaintenanceStartTime := f.weeklyMaintenanceStartTime,
                automaticBackupRetentionDays := f.automaticBackupRetentionDays,
                copyTagsToBackups := f.copyTagsToBackups,
                dailyAutomaticBackupStartTime := f.dailyAutomaticBackupStartTime,
                perUnitStorageThroughput := f.perUnitStorageThroughput,
                autoImportPolicy := f.autoImportPolicy,
                driveCacheType := fsxDriveCacheType f },
            backupId := f.backupId,
            kmsKeyId := f.kmsKeyId,
            fileSystemType := "LUSTRE",
            storageType := f.fsxStorageType,
            subnetIds := cfg.computeSubnetIds,
            securityGroupIds := getComputeSecurityGroups cfg computeSecurityGroup },
         ?_, rfl, fun hhdd hdc => ?_, fun hssd => ?_⟩
  · simp [addFsxStorage, hid, hmd]
  · show fsxDriveCacheType f = some "NONE"
    simp [fsxDriveCacheType, hhdd, hdc, pyTruthyStrOpt, pyOfStrOpt, pyTruthy]
  · show fsxDriveCacheType f = none
    simp [fsxDriveCacheType, hssd]

/-- C7 witness: an HDD declaration without an explicit drive cache yields
"NONE"; an SSD declaration yields no drive-cache field. -/
theorem fsx_drive_cache_defaulting_witness :
    (∃ resource : CfnFsxFileSystem,
      (addFsxStorage exampleExternal exampleConfig none initStorageState "FSX0"
          exampleFsxHdd).2.createdFsxFileSystems
        = initStorageState.createdFsxFileSystems ++ [resource]
      ∧ resource.storageType = exampleFsxHdd.fsxStorageType
      ∧ (exampleFsxHdd.fsxStorageType = some "HDD" → exampleFsxHdd.driveCacheType = none →
          resource.lustreConfiguration.driveCacheType = some "NONE")
      ∧ (exampleFsxHdd.fsxStorageType = some "SSD" →
          resource.lustreConfiguration.driveCacheType = none))
    ∧ (∃ resource : CfnFsxFileSystem,
      (addFsxStorage exampleExternal exampleConfig none initStorageState "FSX0"
          exampleFsxSsd).2.createdFsxFileSystems
        = initStorageState.createdFsxFileSystems ++ [resource]
      ∧ resource.storageType = exampleFsxSsd.fsxStorageType
      ∧ (exampleFsxSsd.fsxStorageType = some "HDD" → exampleFsxSsd.driveCacheType = none →
          resource.lustreConfiguration.driveCacheType = some "NONE")
      ∧ (exampleFsxSsd.fsxStorageType = some "SSD" →
          resource.lustreConfiguration.driveCacheType = none)) :=
  ⟨fsx_drive_cache_defaulting exampleExternal exampleConfig none initStorageState "FSX0"
      exampleFsxHdd (by decide) (by decide),
   fsx_drive_cache_defaulting exampleExternal exampleConfig none initStorageState "FSX0"
      exampleFsxSsd (by decide) (by decide)⟩

/-- C9: processing an EFS, FSx or RAID declaration overwrites the per-type
option string (and, for FSx, the MountName/DNSName attributes) with a value
that does not depend on the previously accumulated string, so several
declarations of the same type leave only the last-processed one; only EBS
appends its mount dir to the accumulated comma-joined string. -/
theorem storage_options_overwrite_or_append (ext : External) (cfg : ClusterConfig)
    (computeSecurityGroup : Option String) (st : StorageState) :
    (∀ e : SharedEfs,
      (addSharedStorage ext cfg computeSecurityGroup st (.efs e)).efsOptions
        = efsOptionString e (resolvedEfsId e ("EFS" ++ toString st.efsIds.length))) ∧
    (∀ f : SharedFsx,
      (addSharedStorage ext cfg computeSecurityGroup st (.fsx f)).fsxOptions
        = fsxOptionString f (resolvedFsxId f ("FSX" ++ toString st.fsxIds.length))
      ∧ (addSharedStorage ext cfg computeSecurityGroup st (.fsx f)).fsxMountName
        = some (if !(pyTruthyStrOpt f.fileSystemId) && pyTruthyStrOpt f.mountDir then
                  .pyStr ("FSX" ++ toString st.fsxIds.length ++ ".LustreMountName")
                else pyOfStrOpt f.existingMountName)
      ∧ (addSharedStorage ext cfg computeSecurityGroup st (.fsx f)).fsxDnsName
        = some (pyOfStrOpt f.existingDnsName)) ∧
    (∀ (e : SharedEbs) (r : Raid),
      (addSharedStorage ext cfg computeSecurityGroup st (.raid e r)).raidOptions
        = raidOptionString e r) ∧
    (∀ e : SharedEbs,
      (addSharedStorage ext cfg computeSecurityGroup st (.ebs e)).ebsOptions
        = ebsOptionAppend st.ebsOptions e) := by
  refine ⟨fun e => ?_, fun f => ⟨?_, ?_, ?_⟩, fun e r => ?_, fun e => ?_⟩
  · by_cases hc : pyTruthyStrOpt e.fileSystemId = false ∧ pyTruthyStrOpt e.mountDir = true <;>
      simp [addSharedStorage, addEfsStorage, resolvedEfsId, hc]
  · by_cases hc : pyTruthyStrOpt f.fileSystemId = false ∧ pyTruthyStrOpt f.mountDir = true <;>
      simp [addSharedStorage, addFsxStorage, resolvedFsxId, hc]
  · by_cases hc : pyTruthyStrOpt f.fileSystemId = false ∧ pyTruthyStrOpt f.mountDir = true <;>
      simp [addSharedStorage, addFsxStorage, hc]
  · by_cases hc : pyTruthyStrOpt f.fileSystemId = false ∧ pyTruthyStrOpt f.mountDir = true <;>
      simp [addSharedStorage, addFsxStorage, hc]
  · simp [addSharedStorage, addRaidVolume]
  · by_cases hc : pyTruthyStrOpt e.volumeId = false ∧ pyTruthyStrOpt e.mountDir = true <;>
      simp [addSharedStorage, addEbsVolume, hc]

/-- C10: for an EBS declaration supplying neither a volume id nor a mount dir,
no volume resource is created, a `none` id is appended to the EBS id list, and
the `EBSIds` output join over that list is undefined (Python `str.join` raises
on the `None` element). -/
theorem ebs_missing_id_breaks_ids_output (ext : External) (cfg : ClusterConfig)
    (computeSecurityGroup : Option String) (st : StorageState) (e : SharedEbs)
    (hvol : e.volumeId = none) (hmd : e.mountDir = none) :
    (addSharedStorage ext cfg computeSecurityGroup st (.ebs e)).createdVolumes
      = st.createdVolumes
    ∧ (addSharedStorage ext cfg computeSecurityGroup st (.ebs e)).ebsIds
      = st.ebsIds ++ [none]
    ∧ storageIdsOutputValue
        (addSharedStorage ext cfg computeSecurityGroup st (.ebs e)).ebsIds = none := by
  refine ⟨?_, ?_, ?_⟩
  · simp [addSharedStorage, addEbsVolume, hvol, hmd, pyTruthyStrOpt, pyOfStrOpt, pyTruthy]
  · simp [addSharedStorage, addEbsVolume, hvol, hmd, pyTruthyStrOpt, pyOfStrOpt, pyTruthy]
  · simp [addSharedStorage, addEbsVolume, hvol, hmd, pyTruthyStrOpt, pyOfStrOpt, pyTruthy,
      storageIdsOutputValue, pyJoinIds]

/-- One step of the mount-target pass when the subnet's zone was already
checked: nothing is created and the checked list is unchanged. -/
theorem addEfsMountTarget_mem (ext : External) (rid : String) (fsId : Option String)
    (sgs : List String) (subnetId : String) (checked : List String) (newFs : Bool)
    (h : ext.subnetAz subnetId ∈ checked) :
    addEfsMountTarget ext rid fsId sgs subnetId checked newFs = ([], checked) := by
  simp [addEfsMountTarget, h]

/-- One step of the mount-target pass when the subnet's zone is new: the zone
is appended to the checked list and a mount target is created when the
filesystem is new or the inventory reports no existing target in the zone. -/
theorem addEfsMountTarget_not_mem (ext : External) (rid : String) (fsId : Option String)
    (sgs : List String) (subnetId : String) (checked : List String) (newFs : Bool)
    (h : ext.subnetAz subnetId ∉ checked) :
    addEfsMountTarget ext rid fsId sgs subnetId checked newFs
      = ((if newFs || !(pyTruthyStrOpt (ext.efsMountTargetId fsId (ext.subnetAz subnetId))) then
            [{ logicalId := rid ++ "MT" ++ ext.subnetAz subnetId, fileSystemId := fsId,
               securityGroups := sgs, subnetId := subnetId }]
          else []),
         checked ++ [ext.subnetAz subnetId]) := by
  simp [addEfsMountTarget, h]

/-- The mount-target pass invariant, by induction over the subnet list. -/
theorem mountPassFacts_go (ext : External) (rid : String) (fsId : Option String)
    (sgs : List String) (newFs : Bool) :
    ∀ (sns checked : List String),
      MountPassFacts ext fsId newFs sns checked
        (addEfsMountTargetsOverSubnets ext rid fsId sgs newFs sns checked) := by
  intro sns
  induction sns with
  | nil =>
    intro checked
    refine ⟨⟨[], ?_, ?_, ?_, ?_⟩, ?_, ?_, ?_, ?_⟩ <;> simp [addEfsMountTargetsOverSubnets]
  | cons sn rest ih =>
    intro checked
    by_cases hmem : ext.subnetAz sn ∈ checked
    · have hstep := addEfsMountTarget_mem ext rid fsId sgs sn checked newFs hmem
      have hgo : addEfsMountTargetsOverSubnets ext rid fsId sgs newFs (sn :: rest) checked
          = addEfsMountTargetsOverSubnets ext rid fsId sgs newFs rest checked := by
        simp [addEfsMountTargetsOverSubnets, hstep]
      rw [hgo]
      obtain ⟨⟨fresh, h2, hnd, hnotin, horig⟩, hcov, hcf, hnodup, hreuse⟩ := ih checked
      refine ⟨⟨fresh, h2, hnd, hnotin, fun a ha => ?_⟩, fun s hs => ?_, hcf, hnodup, hreuse⟩
      · obtain ⟨s, hs, hseq⟩ := horig a ha
        exact ⟨s, List.mem_cons_of_mem _ hs, hseq⟩
      · rcases List.mem_cons.mp hs with rfl | hs'
        · rw [h2]; exact List.mem_append_left _ hmem
        · exact hcov s hs'
    · have hstep := addEfsMountTarget_not_mem ext rid fsId sgs sn checked newFs hmem
      have hgo : addEfsMountTargetsOverSubnets ext rid fsId sgs newFs (sn :: rest) checked
          = ((if newFs ||
                  !(pyTruthyStrOpt (ext.efsMountTargetId fsId (ext.subnetAz sn))) then
                [{ logicalId := rid ++ "MT" ++ ext.subnetAz sn, fileSystemId := fsId,
                   securityGroups := sgs, subnetId := sn }]
              else []) ++
              (addEfsMountTargetsOverSubnets ext rid fsId sgs newFs rest
                (checked ++ [ext.subnetAz sn])).1,
             (addEfsMountTargetsOverSubnets ext rid fsId sgs newFs rest
               (checked ++ [ext.subnetAz sn])).2) := by
        simp only [addEfsMountTargetsOverSubnets, hstep]
      rw [hgo]
      obtain ⟨⟨fresh, h2, hnd, hnotin, horig⟩, hcov, hcf, hnodup, hreuse⟩ :=
        ih (checked ++ [ext.subnetAz sn])
      have haznotfresh : ext.subnetAz sn ∉ fresh := fun hin =>
        (hnotin _ hin) (List.mem_append_right _ (List.mem_singleton.mpr rfl))
      have h2' : (addEfsMountTargetsOverSubnets ext rid fsId sgs newFs rest
          (checked ++ [ext.subnetAz sn])).2 = checked ++ (ext.subnetAz sn :: fresh) := by
        rw [h2, List.append_assoc]
        rfl
      have hazmem : ext.subnetAz sn ∈ (addEfsMountTargetsOverSubnets ext rid fsId sgs newFs
          rest (checked ++ [ext.subnetAz sn])).2 := by
        rw [h2]
        exact List.mem_append_left _ (List.mem_append_right _ (List.mem_singleton.mpr rfl))
      refine ⟨⟨ext.subnetAz sn :: fresh, h2', ?_, ?_, ?_⟩, fun s hs => ?_, fun mt hmt => ?_,
        ?_, fun hnf mt hmt => ?_⟩
      · exact List.nodup_cons.mpr ⟨haznotfresh, hnd⟩
      · intro a ha
        rcases List.mem_cons.mp ha with rfl | ha'
        · exact hmem
        · intro hen
          exact (hnotin a ha') (List.mem_append_left _ hen)
      · intro a ha
        rcases List.mem_cons.mp ha with rfl | ha'
        · exact ⟨sn, List.mem_cons_self _ _, rfl⟩
        · obtain ⟨s, hs, hseq⟩ := horig a ha'
          exact ⟨s, List.mem_cons_of_mem _ hs, hseq⟩
      · rcases List.mem_cons.mp hs with rfl | hs'
        · exact hazmem
        · exact hcov s hs'
      · rcases List.mem_append.mp hmt with hin | hin
        · by_cases hcond : (newFs ||
              !(pyTruthyStrOpt (ext.efsMountTargetId fsId (ext.subnetAz sn)))) = true
          · rw [if_pos hcond] at hin
            obtain rfl := List.mem_singleton.mp hin
            exact ⟨hmem, hazmem⟩
          · rw [if_neg hcond] at hin
            cases hin
        · obtain ⟨hnot, hin2⟩ := hcf mt hin
          exact ⟨fun hc => hnot (List.mem_append_left _ hc), hin2⟩
      · rw [List.map_append]
        apply List.Nodup.append
        · by_cases hcond : (newFs ||
              !(pyTruthyStrOpt (ext.efsMountTargetId fsId (ext.subnetAz sn)))) = true
          · rw [if_pos hcond]; simp [mtAz]
          · rw [if_neg hcond]; simp
        · exact hnodup
        · intro a ha hb
          by_cases hcond : (newFs ||
              !(pyTruthyStrOpt (ext.efsMountTargetId fsId (ext.subnetAz sn)))) = true
          · rw [if_pos hcond] at ha
            simp only [List.map_cons, List.map_nil, List.mem_singleton] at ha
            obtain ⟨mt2, hmt2, hmt2az⟩ := List.mem_map.mp hb
            have := (hcf mt2 hmt2).1
            rw [hmt2az] at this
            rw [ha] at this
            exact this (List.mem_append_right _ (List.mem_singleton.mpr (by simp [mtAz])))
          · rw [if_neg hcond] at ha
            cases ha
      · rcases List.mem_append.mp hmt with hin | hin
        · by_cases hlook : pyTruthyStrOpt (ext.efsMountTargetId fsId (ext.subnetAz sn)) = true
          · have hcond : (newFs ||
                !(pyTruthyStrOpt (ext.efsMountTargetId fsId (ext.subnetAz sn)))) = false := by
              rw [hnf, hlook]; rfl
            rw [hcond] at hin
            simp at hin
          · have hmtaz : mtAz ext mt = ext.subnetAz sn := by
              by_cases hcond : (newFs ||
                  !(pyTruthyStrOpt (ext.efsMountTargetId fsId (ext.subnetAz sn)))) = true
              · rw [if_pos hcond] at hin
                have := List.mem_singleton.mp hin
                subst this
                simp [mtAz]
              · rw [if_neg hcond] at hin
                cases hin
            rw [hmtaz]
            exact Bool.eq_false_iff.mpr hlook
        · exact hreuse hnf mt hin

/-- Splitting the mount-target pass over an appended subnet list. -/
theorem addEfsMountTargetsOverSubnets_append (ext : External) (rid : String)
    (fsId : Option String) (sgs : List String) (newFs : Bool) :
    ∀ (l1 l2 checked : List String),
      addEfsMountTargetsOverSubnets ext rid fsId sgs newFs (l1 ++ l2) checked
        = ((addEfsMountTargetsOverSubnets ext rid fsId sgs newFs l1 checked).1
             ++ (addEfsMountTargetsOverSubnets ext rid fsId sgs newFs l2
                  (addEfsMountTargetsOverSubnets ext rid fsId sgs newFs l1 checked).2).1,
           (addEfsMountTargetsOverSubnets ext rid fsId sgs newFs l2
             (addEfsMountTargetsOverSubnets ext rid fsId sgs newFs l1 checked).2).2) := by
  intro l1
  induction l1 with
  | nil => intro l2 checked; simp [addEfsMountTargetsOverSubnets]
  | cons s l1 ih =>
    intro l2 checked
    simp [addEfsMountTargetsOverSubnets, ih, List.append_assoc]

/-- `_add_efs_storage` loops the compute subnets and then handles the head
subnet with the same checked-zone list; this is one pass over the concatenated
subnet list. -/
theorem efsMountTargetsWithDecisions_eq_pass (ext : External) (cfg : ClusterConfig)
    (rid : String) (fsId : Option String) (newFs : Bool) (sgs : List String) :
    efsMountTargetsWithDecisions ext cfg rid fsId newFs sgs
      = addEfsMountTargetsOverSubnets ext rid fsId sgs newFs
          (cfg.computeSubnetIds ++ [cfg.headNode.networking.subnetId]) [] := by
  rw [addEfsMountTargetsOverSubnets_append]
  simp [efsMountTargetsWithDecisions, addEfsMountTargetsOverSubnets]

/-- C5: across the compute subnets and the head-node subnet, at most one EFS
mount target is created per availability zone (the created targets' zones are
pairwise distinct); the creation decision is made exactly once per distinct
zone (the checked-zone list is duplicate-free, covers every processed subnet's
zone, and contains only such zones); and for a reused filesystem a target is
created only when the inventory lookup reports none in that zone. -/
theorem efs_mount_target_dedup (ext : External) (cfg : ClusterConfig) (rid : String)
    (fileSystemId : Option String) (newFileSystem : Bool) (sgs : List String) :
    ((efsMountTargetsWithDecisions ext cfg rid fileSystemId newFileSystem sgs).1.map
        (mtAz ext)).Nodup
    ∧ (efsMountTargetsWithDecisions ext cfg rid fileSystemId newFileSystem sgs).2.Nodup
    ∧ (∀ s ∈ cfg.computeSubnetIds ++ [cfg.headNode.networking.subnetId],
        ext.subnetAz s ∈ (efsMountTargetsWithDecisions ext cfg rid fileSystemId
          newFileSystem sgs).2)
    ∧ (∀ a ∈ (efsMountTargetsWithDecisions ext cfg rid fileSystemId newFileSystem sgs).2,
        ∃ s ∈ cfg.computeSubnetIds ++ [cfg.headNode.networking.subnetId],
          ext.subnetAz s = a)
    ∧ (newFileSystem = false →
        ∀ mt ∈ (efsMountTargetsWithDecisions ext cfg rid fileSystemId newFileSystem sgs).1,
          pyTruthyStrOpt (ext.efsMountTargetId fileSystemId (mtAz ext mt)) = false) := by
  rw [efsMountTargetsWithDecisions_eq_pass]
  obtain ⟨⟨fresh, h2, hnd, _hnotin, horig⟩, hcov, _hcf, hnodup, hreuse⟩ :=
    mountPassFacts_go ext rid fileSystemId sgs newFileSystem
      (cfg.computeSubnetIds ++ [cfg.headNode.networking.subnetId]) []
  have h2' : (addEfsMountTargetsOverSubnets ext rid fileSystemId sgs newFileSystem
      (cfg.computeSubnetIds ++ [cfg.headNode.networking.subnetId]) []).2 = fresh := by
    simpa using h2
  refine ⟨hnodup, ?_, hcov, ?_, hreuse⟩
  · rw [h2']; exact hnd
  · intro a ha
    exact horig a (h2' ▸ ha)

/-- C5 witness: with three subnets resolving to the same availability zone and
a reused filesystem with no existing mount target, exactly one mount target is
created and the facts of the theorem hold. -/
theorem efs_mount_target_dedup_witness :
    ((efsMountTargetsWithDecisions exampleExternal exampleConfigTwoSubnets "EFS0"
        (some "fs-12345678") false ["sg-c"]).1.map (mtAz exampleExternal)).Nodup
    ∧ (∀ mt ∈ (efsMountTargetsWithDecisions exampleExternal exampleConfigTwoSubnets "EFS0"
          (some "fs-12345678") false ["sg-c"]).1,
        pyTruthyStrOpt
          (exampleExternal.efsMountTargetId (some "fs-12345678")
            (mtAz exampleExternal mt)) = false)
    ∧ (efsMountTargetsWithDecisions exampleExternal exampleConfigTwoSubnets "EFS0"
        (some "fs-12345678") false ["sg-c"]).1
      = [{ logicalId := "EFS0MTaz-a", fileSystemId := some "fs-12345678",
           securityGroups := ["sg-c"], subnetId := "subnet-1" }] :=
  ⟨(efs_mount_target_dedup exampleExternal exampleConfigTwoSubnets "EFS0"
      (some "fs-12345678") false ["sg-c"]).1,
   (efs_mount_target_dedup exampleExternal exampleConfigTwoSubnets "EFS0"
      (some "fs-12345678") false ["sg-c"]).2.2.2.2 rfl,
   by decide⟩

/-- C10 witness: the EBS declaration with neither id nor mount dir evaluated
on a concrete state. -/
theorem ebs_missing_id_breaks_ids_output_witness :
    (addSharedStorage exampleExternal exampleConfig none initStorageState
        (.ebs exampleEbsEmpty)).createdVolumes = initStorageState.createdVolumes
    ∧ (addSharedStorage exampleExternal exampleConfig none initStorageState
        (.ebs exampleEbsEmpty)).ebsIds = initStorageState.ebsIds ++ [none]
    ∧ storageIdsOutputValue
        (addSharedStorage exampleExternal exampleConfig none initStorageState
          (.ebs exampleEbsEmpty)).ebsIds = none :=
  ebs_missing_id_breaks_ids_output exampleExternal exampleConfig none initStorageState
    exampleEbsEmpty (by decide) (by decide)

/-- C6: a slurm configuration synthesizes the scheduler's hosted-zone and
state-table resources, no managed-batch resources, a compute fleet, and a
head-node dependency edge on the compute fleet; a managed-batch configuration
synthesizes the batch resources, no hosted-zone/state-table resources, no
compute fleet, and no head-node dependency on a compute fleet. -/
theorem scheduler_resource_subsets (cfg : ClusterConfig) :
    (cfg.scheduling.scheduler = "slurm" →
      ResourceKind.slurmHostedZone ∈ addResourcesKinds cfg
      ∧ ResourceKind.slurmDynamoTable ∈ addResourcesKinds cfg
      ∧ ResourceKind.batchComputeEnvironment ∉ addResourcesKinds cfg
      ∧ ResourceKind.batchJobQueue ∉ addResourcesKinds cfg
      ∧ ResourceKind.computeFleet ∈ addResourcesKinds cfg
      ∧ headNodeDependsOnComputeFleet cfg = true) ∧
    (cfg.scheduling.scheduler = "awsbatch" →
      ResourceKind.batchComputeEnvironment ∈ addResourcesKinds cfg
      ∧ ResourceKind.batchJobQueue ∈ addResourcesKinds cfg
      ∧ ResourceKind.slurmHostedZone ∉ addResourcesKinds cfg
      ∧ ResourceKind.slurmDynamoTable ∉ addResourcesKinds cfg
      ∧ ResourceKind.computeFleet ∉ addResourcesKinds cfg
      ∧ headNodeDependsOnComputeFleet cfg = false) := by
  refine ⟨fun h => ?_, fun h => ?_⟩
  · have hs : conditionIsSlurm cfg = true := by simp [conditionIsSlurm, h]
    have hb : conditionIsBatch cfg = false := by simp [conditionIsBatch, h]
    refine ⟨?_, ?_, ?_, ?_, ?_, ?_⟩ <;>
      simp [addResourcesKinds, hs, hb, slurmConstructResources, awsBatchConstructResources,
        headNodeDependsOnComputeFleet]
  · have hs : conditionIsSlurm cfg = false := by simp [conditionIsSlurm, h]
    have hb : conditionIsBatch cfg = true := by simp [conditionIsBatch, h]
    refine ⟨?_, ?_, ?_, ?_, ?_, ?_⟩ <;>
      simp [addResourcesKinds, hs, hb, slurmConstructResources, awsBatchConstructResources,
        headNodeDependsOnComputeFleet]

/-- C6 witness: the slurm and managed-batch resource subsets evaluated on
concrete configurations. -/
theorem scheduler_resource_subsets_witness :
    (ResourceKind.slurmHostedZone ∈ addResourcesKinds exampleConfig
      ∧ ResourceKind.slurmDynamoTable ∈ addResourcesKinds exampleConfig
      ∧ ResourceKind.batchComputeEnvironment ∉ addResourcesKinds exampleConfig
      ∧ ResourceKind.batchJobQueue ∉ addResourcesKinds exampleConfig
      ∧ ResourceKind.computeFleet ∈ addResourcesKinds exampleConfig
      ∧ headNodeDependsOnComputeFleet exampleConfig = true)
    ∧ (ResourceKind.batchComputeEnvironment ∈ addResourcesKinds exampleConfigBatch
      ∧ ResourceKind.batchJobQueue ∈ addResourcesKinds exampleConfigBatch
      ∧ ResourceKind.slurmHostedZone ∉ addResourcesKinds exampleConfigBatch
      ∧ ResourceKind.slurmDynamoTable ∉ addResourcesKinds exampleConfigBatch
      ∧ ResourceKind.computeFleet ∉ addResourcesKinds exampleConfigBatch
      ∧ headNodeDependsOnComputeFleet exampleConfigBatch = false) :=
  ⟨(scheduler_resource_subsets exampleConfig).1 rfl,
   (scheduler_resource_subsets exampleConfigBatch).2 rfl⟩

/-- A failing element makes the error-propagating map fail. -/
theorem exceptMapList_error_of_mem {α β ε : Type} {f : α → Except ε β} {l : List α} {a : α}
    (ha : a ∈ l) {e : ε} (hfa : f a = .error e) :
    ∃ e2, exceptMapList f l = .error e2 := by
  induction l with
  | nil => cases ha
  | cons b bs ih =>
    rcases List.mem_cons.mp ha with rfl | ha2
    · exact ⟨e, by simp [exceptMapList, hfa]⟩
    · cases hb : f b with
      | error e3 => exact ⟨e3, by simp [exceptMapList, hb]⟩
      | ok v =>
        obtain ⟨e2, h2⟩ := ih ha2
        exact ⟨e2, by simp [exceptMapList, hb, h2]⟩

/-- C8: a compute resource whose requested network-interface count exceeds
what its instance type supports makes its launch-template construction fail
with a `ValidationError` identifying that compute resource, and the whole
launch-template build aborts with an error instead of producing interfaces for
the unsupported count. -/
theorem network_interface_count_validation (ext : External) (cfg : ClusterConfig)
    (computeSecurityGroup : Option String) (q : Queue) (cr : ComputeResource)
    (hq : q ∈ cfg.scheduling.queues) (hcr : cr ∈ q.computeResources)
    (hexceed : ext.supportedNetworkInterfaceCount cr.instanceType
      < cr.maxNetworkInterfaceCount) :
    buildComputeResourceLaunchTemplate ext q cr
        (getQueueSecurityGroupsFull computeSecurityGroup q) (queuePlacementGroup ext q)
      = .error ⟨"requested network interface count exceeds what the instance type supports",
                cr.name⟩
    ∧ ∃ e, buildLaunchTemplates ext cfg computeSecurityGroup = .error e := by
  have herr : validateNetworkInterfaceCount ext cr
      = .error ⟨"requested network interface count exceeds what the instance type supports",
                cr.name⟩ := by
    simp [validateNetworkInterfaceCount, hexceed]
  have hbuild : buildComputeResourceLaunchTemplate ext q cr
      (getQueueSecurityGroupsFull computeSecurityGroup q) (queuePlacementGroup ext q)
      = .error ⟨"requested network interface count exceeds what the instance type supports",
                cr.name⟩ := by
    simp [buildComputeResourceLaunchTemplate, herr, Bind.bind, Except.bind]
  refine ⟨hbuild, ?_⟩
  obtain ⟨e2, hq2⟩ :
      ∃ e2, buildQueueLaunchTemplates ext computeSecurityGroup q = .error e2 := by
    unfold buildQueueLaunchTemplates
    exact exceptMapList_error_of_mem hcr hbuild
  have hmapped : (buildQueueLaunchTemplates ext computeSecurityGroup q).map
      (fun ls => (q.name, ls)) = .error e2 := by
    simp [hq2, Except.map]
  unfold buildLaunchTemplates
  exact exceptMapList_error_of_mem hq hmapped

/-- C8 witness: a compute resource requesting 3 interfaces on an instance type
supporting 1 fails with a `ValidationError` naming it, and the whole build
aborts. -/
theorem network_interface_count_validation_witness :
    buildComputeResourceLaunchTemplate exampleExternal exampleQueueThreeNics
        exampleComputeResourceThreeNics
        (getQueueSecurityGroupsFull (some computeSecurityGroupRef) exampleQueueThreeNics)
        (queuePlacementGroup exampleExternal exampleQueueThreeNics)
      = .error ⟨"requested network interface count exceeds what the instance type supports",
                "cr3"⟩
    ∧ ∃ e, buildLaunchTemplates exampleExternal exampleConfigThreeNics
        (some computeSecurityGroupRef) = .error e :=
  network_interface_count_validation exampleExternal exampleConfigThreeNics
    (some computeSecurityGroupRef) exampleQueueThreeNics exampleComputeResourceThreeNics
    (by decide) (by decide) (by decide)

/-- Mapping a function over an error-free transformation of each flatMap block
respects blockwise equality. -/
theorem map_flatMap_congr {α β γ : Type} (l : List α) (f1 f2 : α → List β) (g : β → γ)
    (h : ∀ a ∈ l, (f1 a).map g = (f2 a).map g) :
    (l.flatMap f1).map g = (l.flatMap f2).map g := by
  induction l with
  | nil => rfl
  | cons a as ih =>
    simp only [List.flatMap_cons, List.map_append]
    rw [h a (List.mem_cons_self a as), ih fun b hb => h b (List.mem_cons_of_mem _ hb)]

/-- C2: for a fixed configuration and fixed external collaborator responses,
the bootstrap payload documents of two synthesis runs are identical except for
the fields designated create-vs-update variable — the resolved log-group name
entries and the wait-condition handle references, which carry the sampled
timestamp; the log-group name is preserved verbatim when passed in (update)
and generated with the timestamp suffix only when absent (create). -/
theorem bootstrap_payload_idempotence (ext : External) (cfg : ClusterConfig)
    (logGroupNameParam : Option String) (t1 t2 : SynthesisTime) :
    scrubPayloads (bootstrapPayloads ext cfg logGroupNameParam t1)
      = scrubPayloads (bootstrapPayloads ext cfg logGroupNameParam t2)
    ∧ (∀ name, logGroupNameParam = some name → cfg.isCwLoggingEnabled = true →
        (bootstrapPayloads ext cfg logGroupNameParam t1).head.dna.lookup "log_group_name"
          = some (vstr name))
    ∧ (logGroupNameParam = none → cfg.isCwLoggingEnabled = true →
        (bootstrapPayloads ext cfg logGroupNameParam t1).head.dna.lookup "log_group_name"
          = some (vstr (ext.cwLogGroupNameBase ++ ext.stackName ++ "-" ++ t1.minutes))) := by
  have hlook : ∀ t : SynthesisTime,
      (bootstrapPayloads ext cfg logGroupNameParam t).head.dna.lookup "log_group_name"
        = some (vstr (if cfg.isCwLoggingEnabled then
            resolveLogGroupName ext logGroupNameParam t.minutes else "NONE")) :=
    fun t => rfl
  refine ⟨?_, fun name hp hcw => ?_, fun hp hcw => ?_⟩
  · have h1 : scrubHead (bootstrapPayloads ext cfg logGroupNameParam t1).head
        = scrubHead (bootstrapPayloads ext cfg logGroupNameParam t2).head := rfl
    have h2 : (bootstrapPayloads ext cfg logGroupNameParam t1).compute.map
          (fun e => (e.1, e.2.1, scrubCompute e.2.2))
        = (bootstrapPayloads ext cfg logGroupNameParam t2).compute.map
          (fun e => (e.1, e.2.1, scrubCompute e.2.2)) := by
      show (cfg.scheduling.queues.flatMap _).map _ = (cfg.scheduling.queues.flatMap _).map _
      apply map_flatMap_congr
      intro q _
      rw [List.map_map, List.map_map]
      exact List.map_congr_left fun cr _ => rfl
    unfold scrubPayloads
    rw [h1, h2]
  · rw [hlook t1, hp, hcw]
    simp [resolveLogGroupName]
  · rw [hlook t1, hp, hcw]
    simp [resolveLogGroupName]

/-- C2 witness: the scrubbed payloads of two runs at different timestamps
coincide; on update the passed-in log-group name is preserved; on create the
generated name carries the minute timestamp suffix. -/
theorem bootstrap_payload_idempotence_witness :
    scrubPayloads (bootstrapPayloads exampleExternal exampleConfig none exampleTime1)
      = scrubPayloads (bootstrapPayloads exampleExternal exampleConfig none exampleTime2)
    ∧ (bootstrapPayloads exampleExternal exampleConfig (some "my-log-group")
        exampleTime1).head.dna.lookup "log_group_name" = some (vstr "my-log-group")
    ∧ (bootstrapPayloads exampleExternal exampleConfig none
        exampleTime1).head.dna.lookup "log_group_name"
      = some (vstr "/aws/parallelcluster/clu-202601010101") :=
  ⟨(bootstrap_payload_idempotence exampleExternal exampleConfig none exampleTime1
      exampleTime2).1,
   (bootstrap_payload_idempotence exampleExternal exampleConfig (some "my-log-group")
      exampleTime1 exampleTime2).2.1 "my-log-group" rfl rfl,
   (bootstrap_payload_idempotence exampleExternal exampleConfig none exampleTime1
      exampleTime2).2.2 rfl rfl⟩

end ClusterStack
